import Mathlib

/-!
# Workspace window manager: the window icon (`Applications/Workspace/WM/icon.c`)

A shallow embedding of the icon subsystem.  Stateful C code becomes explicit state
passing over `St` (the icon, its screen, and the chronological log of the calls made
into Xlib, wraster and the rest of the window manager).  Functions that live outside
`icon.c` are fields of `Env`; C `int` and `unsigned` arithmetic is reduced to 32 bits
with `toInt` and `toUnsigned`.
-/

namespace WM

/-! ## Machine integers -/

/-- Value of an expression of C type `int`: reduction to 32 bits, two's complement. -/
def toInt (z : Int) : Int := (z + 2147483648) % 4294967296 - 2147483648

/-- Value of an expression of C type `unsigned`: reduction modulo `2^32`. -/
def toUnsigned (z : Int) : Int := z % 4294967296

/-! ## Data model -/

/-- A C string: the bytes before the terminating NUL. -/
abbrev CString := List Char

/-- An X resource identifier of a window; `None` is `0`. -/
abbrev Window := Nat

/-- An X resource identifier of a drawable; `None` is `0`. -/
abbrev Drawable := Nat

/-- The Xlib constant `None`. -/
def None : Nat := 0

/-- Xutil flag `IconPixmapHint` (`1L << 2`). -/
def IconPixmapHint : Nat := 4

/-- Xutil flag `IconMaskHint` (`1L << 5`). -/
def IconMaskHint : Nat := 32

/-- Xlib constant `Button1`. -/
def Button1 : Nat := 1

/-- Xlib constant `ShiftMask` (`1 << 0`). -/
def ShiftMask : Nat := 1

/-- Xlib constant `ButtonPressMask` (`1L << 2`). -/
def ButtonPressMask : Nat := 4

/-- The border kept free around an icon image (`#define ICON_BORDER 3`). -/
def ICON_BORDER : Int := 3

/-- A wraster image: `id` stands for the address of the instance, so two values with
the same `id` are the same instance; `width` and `height` are its `int` fields. -/
structure RImage where
  id : Nat
  width : Int
  height : Int
deriving DecidableEq, Repr

/-- A wraster colour. -/
structure RColor where
  red : Nat
  green : Nat
  blue : Nat
  alpha : Nat
deriving DecidableEq, Repr

/-- A drawing call applied to the tile clone inside `icon_update_pixmap`. -/
inductive DrawOp where
  | RCombineArea (src : RImage) (sx sy : Int) (width height : Int) (dx dy : Int)
  | RClearImage (color : RColor)
  | RLightImage (color : RColor)
deriving DecidableEq, Repr

/-- The local `tile` of `icon_update_pixmap`: the clone of a tile template together
with the drawing calls applied to it, in order. -/
structure Canvas where
  template : RImage
  ops : List DrawOp
deriving DecidableEq, Repr

/-- A pixmap handle.  A pixmap made by `RConvertImage` is named by what was rendered
into it; `indeterminate` is the value of the uninitialised local `pixmap` that
`icon_update_pixmap` stores when `RConvertImage` fails. -/
inductive Pixmap where
  | None
  | rendered (c : Canvas)
  | indeterminate
deriving DecidableEq, Repr

/-- The `XWMHints` fields that `icon.c` reads. -/
structure XWMHints where
  flags : Nat
  icon_pixmap : Drawable
  icon_mask : Drawable
  icon_window : Window
deriving DecidableEq, Repr

/-- The `WWindow` fields that `icon.c` reads or writes.  `always_user_icon` is the
value of `WFLAGP(wwin, always_user_icon)`. -/
structure WWindow where
  wm_instance : Option CString
  wm_class : Option CString
  always_user_icon : Bool
  net_icon_image : Option RImage
  wm_hints : Option XWMHints
  icon_x : Int
  icon_y : Int
  flags_icon_moved : Bool
  flags_selected : Bool
deriving DecidableEq, Repr

/-- The tile kinds of `icon->tile_type`; `unknown` is any value outside the three
named constants. -/
inductive TileType where
  | TILE_NORMAL
  | TILE_CLIP
  | TILE_DRAWER
  | unknown (value : Int)
deriving DecidableEq, Repr

/-- The `WCoreWindow` fields that `icon.c` reads. -/
structure WCoreWindow where
  window : Window
  width : Int
  height : Int
deriving DecidableEq, Repr

/-- The icon.  `owner` is the pointed-to window (`none` for `NULL`); every icon has
its own owner, so the window is stored by value and writes through `icon->owner`
update it in place. -/
structure WIcon where
  core : WCoreWindow
  owner : Option WWindow
  icon_win : Window
  icon_name : Option CString
  file : Option CString
  file_image : Option RImage
  pixmap : Pixmap
  mini_preview : Pixmap
  tile_type : TileType
  show_title : Bool
  selected : Bool
  highlighted : Bool
  shadowed : Bool
  handlerID : Option Nat
  step : Int
deriving DecidableEq, Repr

/-- The `WScreen` fields that `icon.c` reads or writes.  `notificationCenter` tells
whether the pointer is non-null; `light` is `icon_back_texture->light`. -/
structure WScreen where
  notificationCenter : Bool
  root_win : Window
  def_icon_rimage : Option RImage
  miniwindow_tile : RImage
  icon_tile : RImage
  clip_tile : RImage
  drawer_tile : RImage
  light : RColor
  icon_tile_pixmap : Pixmap
deriving DecidableEq, Repr

/-- The button event that starts a gesture. -/
structure XButtonEvent where
  x : Int
  y : Int
  button : Nat
  state : Nat
deriving DecidableEq, Repr

/-- The events `WMMaskEvent` can deliver to the gesture loop under its mask. -/
inductive XEvent where
  | Expose
  | MotionNotify (x y x_root y_root : Int)
  | ButtonPress (button : Nat)
  | ButtonRelease (button : Nat)
deriving DecidableEq, Repr

/-- The two notification names an icon observes. -/
inductive Topic where
  | WMDidChangeIconAppearanceSettings
  | WMDidChangeIconTileSettings
deriving DecidableEq, Repr

/-- The calls out of `icon.c` that the model records, with the arguments that
matter. -/
inductive Call where
  | CFNotificationCenterRemoveObserver (name : Topic)
  | WMDeleteTimerHandler (handler : Nat)
  | WMAddTimerHandler (delay : Nat)
  | XUnmapWindow (w : Window)
  | XReparentWindow (w parent : Window) (x y : Int)
  | XFree (name : CString)
  | XFreePixmap (p : Pixmap)
  | wfree (s : CString)
  | wfree_icon
  | wCoreDestroy (w : Window)
  | RReleaseImage (image : RImage)
  | RRetainImage (image : RImage)
  | get_default_image
  | get_window_image_from_x11 (w : Window)
  | RConvertImage (tile : Canvas)
  | WMLogWarning
  | XSetWindowBackgroundPixmap (w : Window) (p : Pixmap)
  | XSetWindowBorderWidth (w : Window) (width : Int)
  | XMapWindow (w : Window)
  | XAddToSaveSet (w : Window)
  | wHackedGrabButton (w : Window)
  | XClearWindow (w : Window)
  | XClearArea (w : Window) (width height : Int)
  | WMDrawString (w : Window) (x y : Int) (text : CString)
  | XDrawRectangle (w : Window) (width height : Int)
  | XGrabPointer (w : Window)
  | XChangeActivePointerGrab
  | XUngrabPointer
  | XMoveWindow (w : Window) (x y : Int)
  | WMHandleEvent (ev : XEvent)
  | wLowerFrame
  | wRaiseFrame
  | wSelectWindow (flag : Bool)
  | wDeiconifyWindow
  | wArrangeIcons
deriving DecidableEq, Repr

/-- The `wPreferences` fields that `icon.c` reads. -/
structure WPreferences where
  icon_size : Int
  cmd_modifier_mask : Nat
  dont_blink : Bool
  auto_arrange_icons : Bool
  single_click : Bool

/-- What `getSize` leaves behind: the status of `XGetGeometry` and the contents of
the out-parameters `w`, `h` after the call. -/
structure Geometry where
  status : Bool
  w : Int
  h : Int

/-- Everything `icon.c` uses but does not define: the preferences, the constant
`MOVE_THRESHOLD`, and the functions of Xlib, wraster, WINGs and other window manager
files, as functions of the arguments that `icon.c` passes. -/
structure Env where
  wPreferences : WPreferences
  MOVE_THRESHOLD : Int
  WCHECK_STATE_MODAL : Bool
  IsDoubleClick : XButtonEvent → Bool
  get_default_image : Option RImage
  get_window_image_from_x11 : Window → Option RImage
  getSize : Drawable → Geometry
  RCreateImageFromDrawable : Drawable → Drawable → Option RImage
  RScaleImage : RImage → Int → Int → Option RImage
  RConvertImage : Canvas → Bool
  WMAbsolutePathForFile : CString → Option CString
  get_rimage_from_file : CString → Int → Option RImage
  WMFontHeight : Int
  ShrinkString : CString → Int → CString
  WMWidthOfString : CString → Int
  XGetWindowAttributes : Window → Option Nat
  WMAddTimerHandler : Nat

/-- The state the functions of `icon.c` act on: the screen `icon->core->screen_ptr`,
the icon, and the calls made so far, oldest first. -/
structure St where
  scr : WScreen
  icon : WIcon
  log : List Call
deriving DecidableEq

/-- Record a call at the end of the log. -/
def St.call (s : St) (c : Call) : St := { s with log := s.log ++ [c] }

/-! ## `wIconValidateIconSize` -/

/-- Source `wIconValidateIconSize` (icon.c 373-394): the returned image and the calls
made.  `RScaleImage` takes `unsigned` sizes. -/
def wIconValidateIconSize (E : Env) (icon : Option RImage) (max_size : Int) :
    Option RImage × List Call :=
  let max_icon_size := toInt (max_size - ICON_BORDER)
  match icon with
  | none => (none, [])
  | some icon =>
    if icon.width > toInt (max_size + ICON_BORDER) ∨ icon.height > toInt (max_size + ICON_BORDER) then
      let scaled_image :=
        if icon.width > icon.height then
          E.RScaleImage icon (toUnsigned max_icon_size)
            (toUnsigned (toInt (Int.tdiv (toInt (icon.height * max_icon_size)) icon.width)))
        else
          E.RScaleImage icon
            (toUnsigned (toInt (Int.tdiv (toInt (icon.width * max_icon_size)) icon.height)))
            (toUnsigned max_icon_size)
      (scaled_image, [Call.RReleaseImage icon])
    else
      (some icon, [])

/-! ## `get_name_for_instance_class` -/

/-- C `strlen`. -/
def strlen (s : CString) : Nat := s.length

/-- C `snprintf(buf, size, ...)` on the already formatted text: at most `size - 1`
bytes are stored. -/
def snprintf (size : Nat) (formatted : CString) : CString := formatted.take (size - 1)

/-- Source `get_name_for_instance_class` (icon.c 431-453). -/
def get_name_for_instance_class (wm_instance wm_class : Option CString) : Option CString :=
  match wm_class, wm_instance with
  | some c, some i =>
    let len := strlen c + strlen i + 2
    some (snprintf len (i ++ '.' :: c))
  | some c, none =>
    let len := strlen c + 1
    some (snprintf len c)
  | none, some i =>
    let len := strlen i + 1
    some (snprintf len i)
  | none, none => none

/-! ## Image state of an icon -/

/-- Source `unset_icon_image` (icon.c 599-610). -/
def unset_icon_image (s : St) : St :=
  let s := match s.icon.file with
    | some f => { (s.call (Call.wfree f)) with icon := { s.icon with file := none } }
    | none => s
  match s.icon.file_image with
  | some img => { (s.call (Call.RReleaseImage img)) with icon := { s.icon with file_image := none } }
  | none => s

/-- Source `set_icon_image_from_image` (icon.c 612-621), for a non-null icon. -/
def set_icon_image_from_image (s : St) (image : Option RImage) : St :=
  let s := unset_icon_image s
  { s with icon := { s.icon with file_image := image } }

/-- wraster `RRetainImage`: counts one more holder of a non-null image and returns
the same pointer. -/
def RRetainImage (s : St) (image : Option RImage) : St :=
  match image with
  | some img => s.call (Call.RRetainImage img)
  | none => s

/-- Source `get_rimage_icon_from_x11` (icon.c 696-703); `wIconUpdate` calls it with a
non-null owner only. -/
def get_rimage_icon_from_x11 (s : St) : St :=
  let s := unset_icon_image s
  let image := s.icon.owner.bind (fun wwin => wwin.net_icon_image)
  let s := RRetainImage s image
  { s with icon := { s.icon with file_image := image } }

/-- Source `get_rimage_icon_from_default_icon` (icon.c 713-726). -/
def get_rimage_icon_from_default_icon (E : Env) (s : St) : St :=
  let s := match s.scr.def_icon_rimage with
    | none =>
      { (s.call Call.get_default_image) with
        scr := { s.scr with def_icon_rimage := E.get_default_image } }
    | some _ => s
  let s := unset_icon_image s
  let s := RRetainImage s s.scr.def_icon_rimage
  { s with icon := { s.icon with file_image := s.scr.def_icon_rimage } }

/-- Source `get_rimage_icon_from_user_icon` (icon.c 705-711). -/
def get_rimage_icon_from_user_icon (E : Env) (s : St) : St :=
  match s.icon.file_image with
  | some _ => s
  | none => get_rimage_icon_from_default_icon E s

/-- Source `get_rimage_icon_from_icon_win` (icon.c 729-741). -/
def get_rimage_icon_from_icon_win (E : Env) (s : St) : St :=
  let s := s.call (Call.get_window_image_from_x11 s.icon.icon_win)
  let image := E.get_window_image_from_x11 s.icon.icon_win
  let s := unset_icon_image s
  { s with icon := { s.icon with file_image := image } }

/-- Source `get_wwindow_image_from_wmhints` (icon.c 486-496). -/
def get_wwindow_image_from_wmhints (E : Env) (wwin : WWindow) : Option RImage :=
  match wwin.wm_hints with
  | some hints =>
    if hints.flags &&& IconPixmapHint ≠ 0 ∧ hints.icon_pixmap ≠ None then
      E.RCreateImageFromDrawable hints.icon_pixmap
        (if hints.flags &&& IconMaskHint ≠ 0 then hints.icon_mask else None)
    else none
  | none => none

/-- The effect of `flags &= ~IconPixmapHint` on a 64-bit `long`. -/
def clearIconPixmapHint (flags : Nat) : Nat := flags &&& (18446744073709551615 - IconPixmapHint)

/-- Source `get_rimage_icon_from_wm_hints` (icon.c 779-798); `wIconUpdate` calls it
with a non-null owner that has hints. -/
def get_rimage_icon_from_wm_hints (E : Env) (s : St) : Option RImage × St :=
  match s.icon.owner with
  | none => (none, s)
  | some wwin =>
    match wwin.wm_hints with
    | none => (none, s)
    | some hints =>
      if (E.getSize hints.icon_pixmap).status = false then
        let hints := { hints with flags := clearIconPixmapHint hints.flags }
        (none, { s with icon := { s.icon with owner := some { wwin with wm_hints := some hints } } })
      else
        match get_wwindow_image_from_wmhints E wwin with
        | none => (none, s)
        | some image =>
          let r := wIconValidateIconSize E (some image) E.wPreferences.icon_size
          (r.1, { s with log := s.log ++ r.2 })

/-! ## Compositing and painting -/

/-- The tile template `icon_update_pixmap` clones (icon.c 292-313). -/
def tileTemplate (scr : WScreen) (icon : WIcon) : RImage :=
  match icon.tile_type with
  | TileType.TILE_NORMAL => if icon.show_title then scr.miniwindow_tile else scr.icon_tile
  | TileType.TILE_CLIP => scr.clip_tile
  | TileType.TILE_DRAWER => scr.drawer_tile
  | TileType.unknown _ => scr.icon_tile

/-- The `RCombineArea` call of `icon_update_pixmap` for a non-null image (icon.c
315-329).  `w` and `h` are `unsigned`, so every expression they occur in is computed
as `unsigned` and converted back when stored in the `int` locals. -/
def blit (E : Env) (icon : WIcon) (image : RImage) : DrawOp :=
  let icon_size := E.wPreferences.icon_size
  let w := toUnsigned (if image.width > icon_size then icon_size else image.width)
  let x := toInt (toUnsigned (toUnsigned icon_size - w) / 2)
  let sx := toInt (toUnsigned (toUnsigned image.width - w) / 2)
  let theight := if icon.show_title then toInt E.WMFontHeight else 0
  let h := toUnsigned (if toInt (image.height + theight) > icon_size
    then toInt (icon_size - theight) else image.height)
  let y := toInt (toUnsigned (toUnsigned theight +
    toUnsigned (toUnsigned (toUnsigned (toInt (icon_size - theight)) - h) / 2)))
  let sy := toInt (toUnsigned (toUnsigned image.height - h) / 2)
  DrawOp.RCombineArea image sx sy w h x y

/-- The tile as `icon_update_pixmap` has drawn it when it reaches `RConvertImage`
(icon.c 292-347). -/
def composeTile (E : Env) (scr : WScreen) (icon : WIcon) (image : Option RImage) : Canvas :=
  let tile : Canvas := { template := tileTemplate scr icon, ops := [] }
  let tile := match image with
    | some img => { tile with ops := tile.ops ++ [blit E icon img] }
    | none => tile
  let tile := if icon.shadowed then
      { tile with ops := tile.ops ++ [DrawOp.RClearImage
        { red := scr.light.red >>> 8, green := scr.light.green >>> 8,
          blue := scr.light.blue >>> 8, alpha := 150 }] }
    else tile
  if icon.highlighted then
    { tile with ops := tile.ops ++ [DrawOp.RLightImage
      { red := 0, green := 0, blue := 0, alpha := 160 }] }
  else tile

/-- Source `icon_update_pixmap` (icon.c 283-354). -/
def icon_update_pixmap (E : Env) (s : St) (image : Option RImage) : St :=
  let s := match s.icon.tile_type with
    | TileType.unknown _ => s.call Call.WMLogWarning
    | _ => s
  let tile := composeTile E s.scr s.icon image
  let s := s.call (Call.RConvertImage tile)
  let converted := E.RConvertImage tile
  let s := if converted then s else s.call Call.WMLogWarning
  let pixmap := if converted then Pixmap.rendered tile else Pixmap.indeterminate
  { s with icon := { s.icon with pixmap := pixmap } }

/-- Source `set_dockapp_in_icon` (icon.c 744-776). -/
def set_dockapp_in_icon (E : Env) (s : St) : St :=
  let g := E.getSize s.icon.icon_win
  let w := toUnsigned g.w
  let h := toUnsigned g.h
  let s := s.call (Call.XSetWindowBackgroundPixmap s.icon.core.window s.scr.icon_tile_pixmap)
  let s := s.call (Call.XSetWindowBorderWidth s.icon.icon_win 0)
  let s := s.call (Call.XReparentWindow s.icon.icon_win s.icon.core.window
    (toInt (toUnsigned (toUnsigned E.wPreferences.icon_size - w) / 2))
    (toInt (toUnsigned (toUnsigned E.wPreferences.icon_size - h) / 2)))
  let s := s.call (Call.XMapWindow s.icon.icon_win)
  let s := s.call (Call.XAddToSaveSet s.icon.icon_win)
  match E.XGetWindowAttributes s.icon.icon_win with
  | some all_event_masks =>
    if all_event_masks &&& ButtonPressMask ≠ 0 then
      s.call (Call.wHackedGrabButton s.icon.core.window)
    else s
  | none => s

/-- Source `update_icon_title` (icon.c 801-825). -/
def update_icon_title (E : Env) (s : St) : St :=
  match s.icon.show_title, s.icon.icon_name with
  | true, some icon_name =>
    let tmp_string := E.ShrinkString icon_name (toInt (E.wPreferences.icon_size - 4))
    let string_width := E.WMWidthOfString tmp_string
    let x := if string_width > toInt (s.icon.core.width - 4)
      then toInt (toInt (s.icon.core.width - 4) - string_width)
      else toInt (Int.tdiv (toInt (s.icon.core.width - string_width)) 2)
    let x := if x < 2 then 2 else x
    let s := s.call (Call.WMDrawString s.icon.core.window x 1 tmp_string)
    s.call (Call.wfree tmp_string)
  | _, _ => s

/-- Source `wIconPaint` (icon.c 827-841), for an icon with a core and a screen. -/
def wIconPaint (E : Env) (s : St) : St :=
  let s := s.call (Call.XClearWindow s.icon.core.window)
  let s := update_icon_title E s
  if s.icon.selected then
    s.call (Call.XDrawRectangle s.icon.core.window
      (toInt (s.icon.core.width - 1)) (toInt (s.icon.core.height - 1)))
  else s

/-- Source `update_icon_pixmap` (icon.c 671-694). -/
def update_icon_pixmap (E : Env) (s : St) : St :=
  let s := if s.icon.pixmap ≠ Pixmap.None then s.call (Call.XFreePixmap s.icon.pixmap) else s
  let s := { s with icon := { s.icon with pixmap := Pixmap.None } }
  let s := if s.icon.icon_win ≠ None then
      set_dockapp_in_icon E (icon_update_pixmap E s none)
    else
      icon_update_pixmap E s s.icon.file_image
  let s := if s.icon.pixmap ≠ Pixmap.None then
      s.call (Call.XSetWindowBackgroundPixmap s.icon.core.window s.icon.pixmap)
    else s
  wIconPaint E s

/-- The tile `update_icon_pixmap` has `icon_update_pixmap` draw (icon.c 679-686): no
image for a dockapp, the icon's image otherwise. -/
def currentTile (E : Env) (s : St) : Canvas :=
  composeTile E s.scr s.icon (if s.icon.icon_win ≠ None then none else s.icon.file_image)

/-- The branch of `wIconUpdate` for an owner whose hints carry an icon pixmap (icon.c
658-662). -/
def wIconUpdate_from_wm_hints (E : Env) (s : St) : St :=
  let s := unset_icon_image s
  let r := get_rimage_icon_from_wm_hints E s
  let s := { r.2 with icon := { r.2.icon with file_image := r.1 } }
  match s.icon.file_image with
  | none => get_rimage_icon_from_user_icon E s
  | some _ => s

/-- The choice of the image in `wIconUpdate` (icon.c 643-666), for a non-null icon. -/
def wIconUpdate_image (E : Env) (s : St) : St :=
  let wwin := s.icon.owner
  if (wwin.map (fun w => w.always_user_icon)) = some true then
    get_rimage_icon_from_user_icon E s
  else if s.icon.icon_win ≠ None then
    get_rimage_icon_from_icon_win E s
  else if (wwin.bind (fun w => w.net_icon_image)).isSome then
    get_rimage_icon_from_x11 s
  else if ((wwin.bind (fun w => w.wm_hints)).map
      (fun hints => decide (hints.flags &&& IconPixmapHint ≠ 0))) = some true then
    wIconUpdate_from_wm_hints E s
  else
    get_rimage_icon_from_user_icon E s

/-- Source `wIconUpdate` (icon.c 641-669): the choice of the image, then
`update_icon_pixmap`. -/
def wIconUpdate (E : Env) (s : St) : St :=
  update_icon_pixmap E (wIconUpdate_image E s)

/-- Source `wIconChangeImageFile` (icon.c 396-424): the returned `int` and the state
afterwards. -/
def wIconChangeImageFile (E : Env) (s : St) (file : Option CString) : Int × St :=
  match file with
  | none => (1, s)
  | some file =>
    match E.WMAbsolutePathForFile file with
    | none => (0, s)
    | some path =>
      match E.get_rimage_from_file path E.wPreferences.icon_size with
      | none => (0, s.call (Call.wfree path))
      | some image =>
        let s := set_icon_image_from_image s (some image)
        let s := { s with icon := { s.icon with file := some path } }
        let s := update_icon_pixmap E s
        (1, s.call (Call.wfree path))

/-- Source `wIconDestroy` (icon.c 243-281). -/
def wIconDestroy (s : St) : St :=
  let s := if s.scr.notificationCenter then
      (s.call (Call.CFNotificationCenterRemoveObserver Topic.WMDidChangeIconAppearanceSettings)).call
        (Call.CFNotificationCenterRemoveObserver Topic.WMDidChangeIconTileSettings)
    else s
  let s := match s.icon.handlerID with
    | some handler => s.call (Call.WMDeleteTimerHandler handler)
    | none => s
  let s := if s.icon.icon_win ≠ None then
      let xy : Int × Int := match s.icon.owner with
        | some wwin => (wwin.icon_x, wwin.icon_y)
        | none => (0, 0)
      (s.call (Call.XUnmapWindow s.icon.icon_win)).call
        (Call.XReparentWindow s.icon.icon_win s.scr.root_win xy.1 xy.2)
    else s
  let s := match s.icon.icon_name with
    | some name => s.call (Call.XFree name)
    | none => s
  let s := if s.icon.pixmap ≠ Pixmap.None then s.call (Call.XFreePixmap s.icon.pixmap) else s
  let s := if s.icon.mini_preview ≠ Pixmap.None then
      s.call (Call.XFreePixmap s.icon.mini_preview)
    else s
  let s := unset_icon_image s
  let s := s.call (Call.wCoreDestroy s.icon.core.window)
  s.call Call.wfree_icon

/-! ## Direct manipulation -/

/-- Source `wIconSelect` (icon.c 578-597). -/
def wIconSelect (E : Env) (s : St) : St :=
  let s := { s with icon := { s.icon with selected := !s.icon.selected } }
  if s.icon.selected then
    let s := { s with icon := { s.icon with step := 0 } }
    if !E.wPreferences.dont_blink then
      let s := s.call (Call.WMAddTimerHandler 10)
      { s with icon := { s.icon with handlerID := some E.WMAddTimerHandler } }
    else
      s.call (Call.XDrawRectangle s.icon.core.window
        (toInt (s.icon.core.width - 1)) (toInt (s.icon.core.height - 1)))
  else
    let s := match s.icon.handlerID with
      | some handler =>
        { (s.call (Call.WMDeleteTimerHandler handler)) with
          icon := { s.icon with handlerID := none } }
      | none => s
    s.call (Call.XClearArea s.icon.core.window s.icon.core.width s.icon.core.height)

/-- Source `miniwindowDblClick` (icon.c 853-863), for an icon with an owner. -/
def miniwindowDblClick (s : St) : St := s.call Call.wDeiconifyWindow

/-- The locals of `miniwindowMouseDown` that change during the gesture, with the
state. -/
structure Gesture where
  x : Int
  y : Int
  grabbed : Bool
  hasMoved : Bool
  s : St
deriving DecidableEq

/-- How a run of `miniwindowMouseDown` over the events still to be delivered ends:
`fault` when the null owner is dereferenced, `returned` with the events it did not
take, `blocked` when it waits in `WMMaskEvent` for an event that does not come. -/
inductive Outcome where
  | fault
  | returned (g : Gesture) (pending : List XEvent)
  | blocked (g : Gesture)
deriving DecidableEq

/-- The `while (1)` loop of `miniwindowMouseDown` (icon.c 899-948) over the events
`WMMaskEvent` delivers, oldest first; `wwin` is the owner the local pointer refers
to.  Event coordinates are 16-bit protocol values, so the `int` differences are
exact. -/
def miniwindowMouseDown_loop (E : Env) (wwin : WWindow) (dx dy : Int) (clickButton : Nat) :
    Gesture → List XEvent → Outcome
  | g, [] => Outcome.blocked g
  | g, ev :: rest =>
    match ev with
    | XEvent.Expose =>
      miniwindowMouseDown_loop E wwin dx dy clickButton
        { g with s := g.s.call (Call.WMHandleEvent ev) } rest
    | XEvent.MotionNotify mx my x_root y_root =>
      let g := { g with hasMoved := true }
      let dragging : Option Gesture :=
        if g.grabbed = false then
          if ((dx - mx).natAbs : Int) ≥ E.MOVE_THRESHOLD ∨
              ((dy - my).natAbs : Int) ≥ E.MOVE_THRESHOLD then
            some { g with s := g.s.call Call.XChangeActivePointerGrab, grabbed := true }
          else none
        else some g
      match dragging with
      | none => miniwindowMouseDown_loop E wwin dx dy clickButton g rest
      | some g =>
        let g := { g with x := x_root - dx, y := y_root - dy }
        miniwindowMouseDown_loop E wwin dx dy clickButton
          { g with s := g.s.call (Call.XMoveWindow g.s.icon.core.window g.x g.y) } rest
    | XEvent.ButtonPress _ => miniwindowMouseDown_loop E wwin dx dy clickButton g rest
    | XEvent.ButtonRelease button =>
      if button ≠ clickButton then
        miniwindowMouseDown_loop E wwin dx dy clickButton g rest
      else
        let wwin := if wwin.icon_x ≠ g.x ∨ wwin.icon_y ≠ g.y
          then { wwin with flags_icon_moved := true } else wwin
        let s := g.s.call (Call.XMoveWindow g.s.icon.core.window g.x g.y)
        let wwin := { wwin with icon_x := g.x, icon_y := g.y }
        let s := { s with icon := { s.icon with owner := some wwin } }
        let s := s.call Call.XUngrabPointer
        let s := if E.wPreferences.auto_arrange_icons then s.call Call.wArrangeIcons else s
        let s := if E.wPreferences.single_click ∧ g.hasMoved = false
          then miniwindowDblClick s else s
        Outcome.returned { g with s := s } rest

/-- Source `miniwindowMouseDown` (icon.c 865-949): `event` is the press, `events` what
`WMMaskEvent` will deliver afterwards. -/
def miniwindowMouseDown (E : Env) (s : St) (event : XButtonEvent) (events : List XEvent) :
    Outcome :=
  match s.icon.owner with
  | none => Outcome.fault
  | some wwin =>
    let g : Gesture :=
      { x := wwin.icon_x, y := wwin.icon_y, grabbed := false, hasMoved := false, s := s }
    if E.WCHECK_STATE_MODAL then Outcome.returned g events
    else if E.IsDoubleClick event then
      Outcome.returned { g with s := miniwindowDblClick s } events
    else
      let s := if event.button = Button1 then
          let s := if event.state &&& E.wPreferences.cmd_modifier_mask ≠ 0
            then s.call Call.wLowerFrame else s.call Call.wRaiseFrame
          if event.state &&& ShiftMask ≠ 0 then
            (wIconSelect E s).call (Call.wSelectWindow (!wwin.flags_selected))
          else s
        else s
      let s := s.call (Call.XGrabPointer s.icon.core.window)
      miniwindowMouseDown_loop E wwin event.x event.y event.button { g with s := s } events

/-! ## Reading the log -/

/-- The calls that `update_icon_pixmap` and the functions it calls can make. -/
def Call.isRender : Call → Bool
  | Call.XFreePixmap _ => true
  | Call.RConvertImage _ => true
  | Call.WMLogWarning => true
  | Call.XSetWindowBackgroundPixmap _ _ => true
  | Call.XSetWindowBorderWidth _ _ => true
  | Call.XReparentWindow _ _ _ _ => true
  | Call.XMapWindow _ => true
  | Call.XAddToSaveSet _ => true
  | Call.wHackedGrabButton _ => true
  | Call.XClearWindow _ => true
  | Call.WMDrawString _ _ _ _ => true
  | Call.wfree _ => true
  | Call.XDrawRectangle _ _ _ => true
  | _ => false

/-- The tiles handed to `RConvertImage` in a run of calls, in order. -/
def convertedTiles (l : List Call) : List Canvas :=
  l.filterMap (fun c => match c with
    | Call.RConvertImage tile => some tile
    | _ => none)

/-- The log `after` is the log `before` followed by calls that `update_icon_pixmap`
can make, among which the tiles `tiles` were handed to `RConvertImage`, in this
order. -/
def RenderRun (tiles : List Canvas) (before after : List Call) : Prop :=
  ∃ l, after = before ++ l ∧ (∀ c ∈ l, c.isRender = true) ∧ convertedTiles l = tiles

/-! ## The conditions `wIconUpdate` tests -/

/-- The condition `wwin && WFLAGP(wwin, always_user_icon)` (icon.c 648). -/
def forcesUserIcon (icon : WIcon) : Prop :=
  ∃ w, icon.owner = some w ∧ w.always_user_icon = true

/-- The condition `wwin && wwin->net_icon_image` (icon.c 654). -/
def hasProtocolImage (icon : WIcon) : Prop :=
  ∃ w img, icon.owner = some w ∧ w.net_icon_image = some img

/-- The condition `wwin && wwin->wm_hints && (wwin->wm_hints->flags & IconPixmapHint)`
(icon.c 657). -/
def hasPixmapHint (icon : WIcon) : Prop :=
  ∃ w hints, icon.owner = some w ∧ w.wm_hints = some hints ∧
    hints.flags &&& IconPixmapHint ≠ 0

/-- The image in the screen's default slot once `get_rimage_icon_from_default_icon`
has passed its first statement (icon.c 718-719). -/
def defaultImage (E : Env) (scr : WScreen) : Option RImage :=
  match scr.def_icon_rimage with
  | none => E.get_default_image
  | some d => some d

/-- The part of the state that the choice of the image reads and writes: the screen
and the icon, without the pixmap and the log. -/
def St.image (s : St) : St :=
  { scr := s.scr, icon := { s.icon with pixmap := Pixmap.None }, log := [] }

/-- The `XReparentWindow` calls. -/
def Call.isReparent : Call → Bool
  | Call.XReparentWindow _ _ _ _ => true
  | _ => false

/-- The test `abs(dx - ev.xmotion.x) >= MOVE_THRESHOLD || abs(dy - ev.xmotion.y) >=
MOVE_THRESHOLD` (icon.c 912-913) on a motion event; false on any other event. -/
def reachesThreshold (E : Env) (dx dy : Int) : XEvent → Bool
  | XEvent.MotionNotify mx my _ _ =>
    decide (((dx - mx).natAbs : Int) ≥ E.MOVE_THRESHOLD ∨
      ((dy - my).natAbs : Int) ≥ E.MOVE_THRESHOLD)
  | _ => false

/-- The position and the drag flag that `miniwindowMouseDown` holds when a run ends. -/
def Outcome.position : Outcome → Option (Int × Int × Bool)
  | Outcome.fault => none
  | Outcome.returned g _ => some (g.x, g.y, g.grabbed)
  | Outcome.blocked g => some (g.x, g.y, g.grabbed)

/-- The events a run of `miniwindowMouseDown` that returned has left undelivered. -/
def Outcome.pending : Outcome → Option (List XEvent)
  | Outcome.returned _ pending => some pending
  | _ => none

/-- The log when a run of `miniwindowMouseDown` ends. -/
def Outcome.log : Outcome → List Call
  | Outcome.fault => []
  | Outcome.returned g _ => g.s.log
  | Outcome.blocked g => g.s.log

/-! ## Example data -/

/-- An environment for the examples: icon size 64, drag threshold 4, a default image,
a scaler that returns an image of the requested size, and an X server whose queries
succeed. -/
def exampleEnv : Env :=
  { wPreferences :=
      { icon_size := 64, cmd_modifier_mask := 8, dont_blink := false,
        auto_arrange_icons := false, single_click := false }
    MOVE_THRESHOLD := 4
    WCHECK_STATE_MODAL := false
    IsDoubleClick := fun _ => false
    get_default_image := some { id := 1, width := 48, height := 48 }
    get_window_image_from_x11 := fun _ => none
    getSize := fun _ => { status := true, w := 32, h := 32 }
    RCreateImageFromDrawable := fun d _ => some { id := 100 + d, width := 32, height := 32 }
    RScaleImage := fun image w h => some { id := image.id + 1000, width := w, height := h }
    RConvertImage := fun _ => true
    WMAbsolutePathForFile := fun file => some ('/' :: file)
    get_rimage_from_file := fun _ _ => some { id := 7, width := 48, height := 48 }
    WMFontHeight := 10
    ShrinkString := fun text _ => text
    WMWidthOfString := fun text => 6 * text.length
    XGetWindowAttributes := fun _ => some 0
    WMAddTimerHandler := 1 }

/-- The example environment with an X server on which `XGetGeometry` fails. -/
def noGeometryEnv : Env :=
  { exampleEnv with getSize := fun _ => { status := false, w := 0, h := 0 } }

/-- The example environment with an X server whose drawables cannot be read. -/
def noDrawableEnv : Env :=
  { exampleEnv with RCreateImageFromDrawable := fun _ _ => none }

/-- A screen with a notification center and an empty default-image slot. -/
def exampleScreen : WScreen :=
  { notificationCenter := true
    root_win := 1
    def_icon_rimage := none
    miniwindow_tile := { id := 10, width := 64, height := 64 }
    icon_tile := { id := 11, width := 64, height := 64 }
    clip_tile := { id := 12, width := 64, height := 64 }
    drawer_tile := { id := 13, width := 64, height := 64 }
    light := { red := 43690, green := 43690, blue := 43690, alpha := 0 }
    icon_tile_pixmap := Pixmap.None }

/-- A fresh icon as `icon_create_core` leaves it: no owner, no icon window, no
image. -/
def freshIcon : WIcon :=
  { core := { window := 50, width := 64, height := 64 }
    owner := none
    icon_win := None
    icon_name := none
    file := none
    file_image := none
    pixmap := Pixmap.None
    mini_preview := Pixmap.None
    tile_type := TileType.TILE_NORMAL
    show_title := false
    selected := false
    highlighted := false
    shadowed := false
    handlerID := none
    step := 0 }

/-- A window `xterm.XTerm` whose hints carry an icon pixmap. -/
def hintedWindow : WWindow :=
  { wm_instance := some "xterm".toList
    wm_class := some "XTerm".toList
    always_user_icon := false
    net_icon_image := none
    wm_hints := some { flags := IconPixmapHint, icon_pixmap := 77, icon_mask := 0, icon_window := 0 }
    icon_x := 120
    icon_y := 300
    flags_icon_moved := false
    flags_selected := false }

/-- The image `set_icon_image_from_database` loaded from the stored file. -/
def databaseImage : RImage := { id := 7, width := 48, height := 48 }

/-- The state after `icon_create_for_wwindow` has run `set_icon_image_from_database`
for `hintedWindow`: the stored file is loaded into the icon, and the screen holds its
default image. -/
def hintedState : St :=
  { scr := { exampleScreen with def_icon_rimage := some { id := 1, width := 48, height := 48 } }
    icon := { freshIcon with
      owner := some hintedWindow
      file := some "/xterm.XTerm.tiff".toList
      file_image := some databaseImage
      show_title := true }
    log := [] }

/-- A window that supplies a `_NET_WM_ICON` image. -/
def protocolWindow : WWindow :=
  { hintedWindow with net_icon_image := some { id := 9, width := 32, height := 32 } }

/-- An icon of `protocolWindow` on the example screen. -/
def protocolState : St :=
  { scr := exampleScreen, icon := { freshIcon with owner := some protocolWindow }, log := [] }

/-- A fresh icon on the example screen. -/
def freshState : St := { scr := exampleScreen, icon := freshIcon, log := [] }

/-- A press of button 1 at window offset `(10, 10)` with no modifier held. -/
def examplePress : XButtonEvent := { x := 10, y := 10, button := 1, state := 0 }

/-- An icon of `hintedWindow` that embeds the icon window 900 and has a rendered
pixmap. -/
def dockappState : St :=
  { scr := exampleScreen
    icon := { freshIcon with
      owner := some hintedWindow
      icon_win := 900
      pixmap := Pixmap.rendered { template := exampleScreen.icon_tile, ops := [] } }
    log := [] }

/-- The events of type `MotionNotify`, on each of which the loop of
`miniwindowMouseDown` sets `hasMoved` (icon.c 909-910). -/
def XEvent.isMotion : XEvent → Bool
  | XEvent.MotionNotify _ _ _ _ => true
  | _ => false

/-- The example environment with `wPreferences.single_click` set. -/
def singleClickEnv : Env :=
  { exampleEnv with
    wPreferences :=
      { icon_size := 64, cmd_modifier_mask := 8, dont_blink := false,
        auto_arrange_icons := false, single_click := true } }

/-- An image of 48 x 60, taller than the room left under a title of height 10 in a
tile of 64. -/
def tallImage : RImage := { id := 21, width := 48, height := 60 }

/-- A titled icon: `freshIcon` with `show_title` set and a title text. -/
def titledIcon : WIcon :=
  { freshIcon with show_title := true, icon_name := some "xterm".toList }

/-- The titled icon on the example screen. -/
def titledState : St := { scr := exampleScreen, icon := titledIcon, log := [] }

/-! # Theorems -/

/-! ## Machine integer lemmas -/

theorem toInt_eq (z : Int) (h1 : -2147483648 ≤ z) (h2 : z < 2147483648) : toInt z = z := by
  unfold toInt; omega

theorem toUnsigned_eq (z : Int) (h1 : 0 ≤ z) (h2 : z < 4294967296) : toUnsigned z = z := by
  unfold toUnsigned; omega

/-- The scaled side `a * m / b` computed in `int` is the exact truncated quotient and
stays within `0 .. m` when `a ≤ b`. -/
theorem scaled_side (a b m : Int) (ha : 1 ≤ a) (hab : a ≤ b) (hm : 0 ≤ m)
    (hfit : a * m < 2147483648) :
    toUnsigned (toInt (Int.tdiv (toInt (a * m)) b)) = a * m / b ∧
      0 ≤ a * m / b ∧ a * m / b ≤ m := by
  have hp : 0 ≤ a * m := mul_nonneg (by omega) hm
  have hb : 0 < b := by omega
  have hq0 : 0 ≤ a * m / b := Int.ediv_nonneg hp (by omega)
  have hqm : a * m / b ≤ m := by
    apply Int.ediv_le_of_le_mul hb
    exact mul_le_mul_of_nonneg_right hab hm |>.trans (le_of_eq (mul_comm b m))
  have hqp : a * m / b ≤ a * m := Int.ediv_le_self b hp
  rw [toInt_eq (a * m) (by omega) hfit, Int.tdiv_eq_ediv hp (by omega),
    toInt_eq _ (by omega) (by omega), toUnsigned_eq _ hq0 (by omega)]
  exact ⟨rfl, hq0, hqm⟩

/-- C1. `wIconValidateIconSize` on a well-formed image (both sides at least 1) and an
icon size of at least the border, with the products inside the `int` range and a
scaler that returns an image of exactly the requested size: a null image gives null;
an image wider or taller than `max_size + 3` comes back as the scaler's image, whose
longer side is `max_size - 3` and whose other side is at most that; an image within
the bound comes back itself, with no call made. -/
theorem wIconValidateIconSize_contract (E : Env) (img : RImage) (max_size : Int)
    (hw : 1 ≤ img.width) (hh : 1 ≤ img.height)
    (hmax : 3 ≤ max_size) (hmax2 : max_size + 3 < 2147483648)
    (hfw : img.width * (max_size - 3) < 2147483648)
    (hfh : img.height * (max_size - 3) < 2147483648)
    (hscale : ∀ w h, ∃ r, E.RScaleImage img w h = some r ∧ r.width = w ∧ r.height = h) :
    (wIconValidateIconSize E none max_size).1 = none ∧
    ((img.width > max_size + 3 ∨ img.height > max_size + 3) →
      ∃ r w h, (wIconValidateIconSize E (some img) max_size).1 = some r ∧
        E.RScaleImage img w h = some r ∧
        max r.width r.height = max_size - 3 ∧ min r.width r.height ≤ max_size - 3) ∧
    ((img.width ≤ max_size + 3 ∧ img.height ≤ max_size + 3) →
      wIconValidateIconSize E (some img) max_size = (some img, [])) := by
  have hm : toInt (max_size - ICON_BORDER) = max_size - 3 :=
    toInt_eq _ (by unfold ICON_BORDER; omega) (by unfold ICON_BORDER; omega)
  have hM : toInt (max_size + ICON_BORDER) = max_size + 3 :=
    toInt_eq _ (by unfold ICON_BORDER; omega) (by unfold ICON_BORDER; omega)
  have hmu : toUnsigned (max_size - 3) = max_size - 3 := toUnsigned_eq _ (by omega) (by omega)
  refine ⟨rfl, ?_, ?_⟩
  · intro hex
    simp only [wIconValidateIconSize, hm, hM, if_pos hex, hmu]
    by_cases hwh : img.width > img.height
    · obtain ⟨hq, hq0, hqm⟩ := scaled_side img.height img.width (max_size - 3) hh (by omega)
        (by omega) hfh
      obtain ⟨r, hr, hrw, hrh⟩ := hscale (max_size - 3) (img.height * (max_size - 3) / img.width)
      refine ⟨r, max_size - 3, img.height * (max_size - 3) / img.width, ?_, hr, ?_, ?_⟩
      · simp only [if_pos hwh, hq, hr]
      · rw [hrw, hrh]; exact max_eq_left hqm
      · rw [hrw, hrh]; exact min_le_left _ _
    · obtain ⟨hq, hq0, hqm⟩ := scaled_side img.width img.height (max_size - 3) hw (by omega)
        (by omega) hfw
      obtain ⟨r, hr, hrw, hrh⟩ := hscale (img.width * (max_size - 3) / img.height) (max_size - 3)
      refine ⟨r, img.width * (max_size - 3) / img.height, max_size - 3, ?_, hr, ?_, ?_⟩
      · simp only [if_neg hwh, hq, hr]
      · rw [hrw, hrh]; exact max_eq_right hqm
      · rw [hrw, hrh]; exact min_le_right _ _
  · intro hin
    have : ¬ (img.width > max_size + 3 ∨ img.height > max_size + 3) := by omega
    simp only [wIconValidateIconSize, hM, if_neg this]

/-- C1 at a 400 x 100 image and icon size 64: the hypotheses hold and the contract
follows. -/
theorem wIconValidateIconSize_contract_witness :
    (wIconValidateIconSize exampleEnv none 64).1 = none ∧
    (((400 : Int) > 64 + 3 ∨ (100 : Int) > 64 + 3) →
      ∃ r w h, (wIconValidateIconSize exampleEnv (some { id := 5, width := 400, height := 100 }) 64).1
          = some r ∧
        exampleEnv.RScaleImage { id := 5, width := 400, height := 100 } w h = some r ∧
        max r.width r.height = 64 - 3 ∧ min r.width r.height ≤ 64 - 3) ∧
    (((400 : Int) ≤ 64 + 3 ∧ (100 : Int) ≤ 64 + 3) →
      wIconValidateIconSize exampleEnv (some { id := 5, width := 400, height := 100 }) 64
        = (some { id := 5, width := 400, height := 100 }, [])) :=
  wIconValidateIconSize_contract exampleEnv { id := 5, width := 400, height := 100 } 64
    (by decide) (by decide) (by decide) (by decide) (by decide) (by decide)
    (fun w h => ⟨_, rfl, rfl, rfl⟩)

/-! ## `get_name_for_instance_class` -/

/-- C2. `get_name_for_instance_class`: both names present give
`instance ++ "." ++ class`, a lone class gives the class, a lone instance gives the
instance, and no name gives null; so `("xterm", "XTerm")` gives `"xterm.XTerm"`,
`(null, "XTerm")` gives `"XTerm"` and `(null, null)` gives null. -/
theorem get_name_for_instance_class_spec :
    (∀ i c : CString, get_name_for_instance_class (some i) (some c) = some (i ++ ['.'] ++ c)) ∧
    (∀ c : CString, get_name_for_instance_class none (some c) = some c) ∧
    (∀ i : CString, get_name_for_instance_class (some i) none = some i) ∧
    get_name_for_instance_class none none = none ∧
    get_name_for_instance_class (some "xterm".toList) (some "XTerm".toList)
      = some "xterm.XTerm".toList ∧
    get_name_for_instance_class none (some "XTerm".toList) = some "XTerm".toList := by
  have full : ∀ (n : Nat) (l : CString), l.length ≤ n → snprintf (n + 1) l = l := by
    intro n l h
    simp only [snprintf, Nat.add_sub_cancel]
    exact List.take_of_length_le h
  refine ⟨?_, ?_, ?_, rfl, by decide, by decide⟩
  · intro i c
    simp only [get_name_for_instance_class, strlen]
    rw [full _ _ (by simp; omega)]
    simp
  · intro c
    simp only [get_name_for_instance_class, strlen]
    rw [full _ _ (le_refl _)]
  · intro i
    simp only [get_name_for_instance_class, strlen]
    rw [full _ _ (le_refl _)]

/-! ## Framing: what rendering leaves alone -/

@[simp] theorem St.call_icon (s : St) (c : Call) : (s.call c).icon = s.icon := rfl
@[simp] theorem St.call_scr (s : St) (c : Call) : (s.call c).scr = s.scr := rfl
@[simp] theorem St.call_log (s : St) (c : Call) : (s.call c).log = s.log ++ [c] := rfl

theorem RenderRun.refl (l : List Call) : RenderRun [] l l := ⟨[], by simp, by simp, rfl⟩

theorem RenderRun.trans {a b : List Canvas} {s t u : List Call} (h1 : RenderRun a s t)
    (h2 : RenderRun b t u) : RenderRun (a ++ b) s u := by
  obtain ⟨l1, e1, r1, c1⟩ := h1
  obtain ⟨l2, e2, r2, c2⟩ := h2
  refine ⟨l1 ++ l2, by rw [e2, e1, List.append_assoc], ?_, ?_⟩
  · intro c hc
    rcases List.mem_append.mp hc with h | h
    · exact r1 c h
    · exact r2 c h
  · simp only [convertedTiles, List.filterMap_append] at c1 c2 ⊢
    rw [c1, c2]

theorem RenderRun.call (s : St) (c : Call) (h : c.isRender = true)
    (hn : convertedTiles [c] = []) : RenderRun [] s.log (s.call c).log :=
  ⟨[c], rfl, by simpa using h, hn⟩

theorem composeTile_pixmap (E : Env) (scr : WScreen) (icon : WIcon) (p : Pixmap)
    (image : Option RImage) :
    composeTile E scr { icon with pixmap := p } image = composeTile E scr icon image := rfl

theorem icon_update_pixmap_icon (E : Env) (s : St) (image : Option RImage) :
    (icon_update_pixmap E s image).icon = { s.icon with pixmap :=
      (if E.RConvertImage (composeTile E s.scr s.icon image)
        then Pixmap.rendered (composeTile E s.scr s.icon image) else Pixmap.indeterminate) } := by
  unfold icon_update_pixmap
  cases htt : s.icon.tile_type <;> cases hc : E.RConvertImage (composeTile E s.scr s.icon image) <;>
    simp [hc, htt]

theorem icon_update_pixmap_scr (E : Env) (s : St) (image : Option RImage) :
    (icon_update_pixmap E s image).scr = s.scr := by
  unfold icon_update_pixmap
  cases htt : s.icon.tile_type <;> cases hc : E.RConvertImage (composeTile E s.scr s.icon image) <;>
    simp [hc, htt]

theorem icon_update_pixmap_log (E : Env) (s : St) (image : Option RImage) :
    RenderRun [composeTile E s.scr s.icon image] s.log (icon_update_pixmap E s image).log := by
  unfold icon_update_pixmap RenderRun
  cases htt : s.icon.tile_type <;> cases hc : E.RConvertImage (composeTile E s.scr s.icon image) <;>
    simp [hc, htt, Call.isRender, convertedTiles]

theorem set_dockapp_in_icon_icon (E : Env) (s : St) : (set_dockapp_in_icon E s).icon = s.icon := by
  unfold set_dockapp_in_icon
  simp only
  split
  · split <;> rfl
  · rfl

theorem set_dockapp_in_icon_scr (E : Env) (s : St) : (set_dockapp_in_icon E s).scr = s.scr := by
  unfold set_dockapp_in_icon
  simp only
  split
  · split <;> rfl
  · rfl

theorem set_dockapp_in_icon_log (E : Env) (s : St) : RenderRun [] s.log (set_dockapp_in_icon E s).log := by
  have base : RenderRun [] s.log (((((s.call (Call.XSetWindowBackgroundPixmap s.icon.core.window
      s.scr.icon_tile_pixmap)).call (Call.XSetWindowBorderWidth s.icon.icon_win 0)).call
      (Call.XReparentWindow s.icon.icon_win s.icon.core.window
        (toInt (toUnsigned (toUnsigned E.wPreferences.icon_size - toUnsigned (E.getSize s.icon.icon_win).w) / 2))
        (toInt (toUnsigned (toUnsigned E.wPreferences.icon_size - toUnsigned (E.getSize s.icon.icon_win).h) / 2)))).call
      (Call.XMapWindow s.icon.icon_win)).call (Call.XAddToSaveSet s.icon.icon_win)).log :=
    ⟨_, by simp only [St.call_log, List.append_assoc]; rfl, by simp [Call.isRender],
      by simp [convertedTiles]⟩
  unfold set_dockapp_in_icon
  simp only [St.call_icon, St.call_scr]
  split
  · split
    · exact base.trans (RenderRun.call _ _ (by rfl) (by rfl))
    · exact base
  · exact base

theorem update_icon_title_icon (E : Env) (s : St) : (update_icon_title E s).icon = s.icon := by
  unfold update_icon_title
  split <;> rfl

theorem update_icon_title_scr (E : Env) (s : St) : (update_icon_title E s).scr = s.scr := by
  unfold update_icon_title
  split <;> rfl

theorem update_icon_title_log (E : Env) (s : St) : RenderRun [] s.log (update_icon_title E s).log := by
  unfold update_icon_title
  split
  · exact (RenderRun.call _ _ (by rfl) (by rfl)).trans (RenderRun.call _ _ (by rfl) (by rfl))
  · exact RenderRun.refl s.log

theorem wIconPaint_icon (E : Env) (s : St) : (wIconPaint E s).icon = s.icon := by
  unfold wIconPaint
  simp only
  split <;> simp [update_icon_title_icon]

theorem wIconPaint_scr (E : Env) (s : St) : (wIconPaint E s).scr = s.scr := by
  unfold wIconPaint
  simp only
  split <;> simp [update_icon_title_scr]

theorem wIconPaint_log (E : Env) (s : St) : RenderRun [] s.log (wIconPaint E s).log := by
  unfold wIconPaint
  simp only
  have h := (RenderRun.call s (Call.XClearWindow s.icon.core.window) rfl rfl).trans
    (update_icon_title_log E _)
  split
  · exact h.trans (RenderRun.call _ _ (by rfl) (by rfl))
  · exact h

theorem update_icon_pixmap_icon (E : Env) (s : St) :
    (update_icon_pixmap E s).icon = { s.icon with pixmap :=
      (if E.RConvertImage (currentTile E s) then Pixmap.rendered (currentTile E s)
        else Pixmap.indeterminate) } := by
  unfold update_icon_pixmap currentTile
  simp only [wIconPaint_icon]
  by_cases hw : s.icon.icon_win ≠ None
  · by_cases hp : s.icon.pixmap ≠ Pixmap.None <;>
      simp [hw, hp, set_dockapp_in_icon_icon, icon_update_pixmap_icon, apply_ite St.icon] <;>
      rfl
  · by_cases hp : s.icon.pixmap ≠ Pixmap.None <;>
      simp [hw, hp, icon_update_pixmap_icon, apply_ite St.icon] <;>
      rfl

theorem update_icon_pixmap_scr (E : Env) (s : St) : (update_icon_pixmap E s).scr = s.scr := by
  unfold update_icon_pixmap
  simp only [wIconPaint_scr]
  by_cases hw : s.icon.icon_win ≠ None <;> by_cases hp : s.icon.pixmap ≠ Pixmap.None <;>
    simp [hw, hp, set_dockapp_in_icon_scr, icon_update_pixmap_scr, apply_ite St.scr]

theorem update_icon_pixmap_log (E : Env) (s : St) :
    RenderRun [currentTile E s] s.log (update_icon_pixmap E s).log := by
  have hbg : ∀ t : St, RenderRun [] t.log (if t.icon.pixmap ≠ Pixmap.None then
      t.call (Call.XSetWindowBackgroundPixmap t.icon.core.window t.icon.pixmap) else t).log := by
    intro t
    split
    · exact RenderRun.call _ _ (by rfl) (by rfl)
    · exact RenderRun.refl _
  have tail : ∀ t : St, RenderRun [currentTile E t] t.log
      (wIconPaint E
        (if (if t.icon.icon_win ≠ None then set_dockapp_in_icon E
              (icon_update_pixmap E { t with icon := { t.icon with pixmap := Pixmap.None } } none)
            else icon_update_pixmap E { t with icon := { t.icon with pixmap := Pixmap.None } }
              t.icon.file_image).icon.pixmap ≠ Pixmap.None
        then (if t.icon.icon_win ≠ None then set_dockapp_in_icon E
              (icon_update_pixmap E { t with icon := { t.icon with pixmap := Pixmap.None } } none)
            else icon_update_pixmap E { t with icon := { t.icon with pixmap := Pixmap.None } }
              t.icon.file_image).call
          (Call.XSetWindowBackgroundPixmap
            (if t.icon.icon_win ≠ None then set_dockapp_in_icon E
              (icon_update_pixmap E { t with icon := { t.icon with pixmap := Pixmap.None } } none)
            else icon_update_pixmap E { t with icon := { t.icon with pixmap := Pixmap.None } }
              t.icon.file_image).icon.core.window
            (if t.icon.icon_win ≠ None then set_dockapp_in_icon E
              (icon_update_pixmap E { t with icon := { t.icon with pixmap := Pixmap.None } } none)
            else icon_update_pixmap E { t with icon := { t.icon with pixmap := Pixmap.None } }
              t.icon.file_image).icon.pixmap)
        else (if t.icon.icon_win ≠ None then set_dockapp_in_icon E
              (icon_update_pixmap E { t with icon := { t.icon with pixmap := Pixmap.None } } none)
            else icon_update_pixmap E { t with icon := { t.icon with pixmap := Pixmap.None } }
              t.icon.file_image))).log := by
    intro t
    have body : RenderRun [currentTile E t] t.log
        (if t.icon.icon_win ≠ None then set_dockapp_in_icon E
            (icon_update_pixmap E { t with icon := { t.icon with pixmap := Pixmap.None } } none)
          else icon_update_pixmap E { t with icon := { t.icon with pixmap := Pixmap.None } }
            t.icon.file_image).log := by
      unfold currentTile
      split
      · exact (icon_update_pixmap_log E { t with icon := { t.icon with pixmap := Pixmap.None } }
          none).trans (set_dockapp_in_icon_log E _)
      · exact icon_update_pixmap_log E { t with icon := { t.icon with pixmap := Pixmap.None } }
          t.icon.file_image
    exact (body.trans (hbg _)).trans (wIconPaint_log E _)
  unfold update_icon_pixmap
  by_cases hp : s.icon.pixmap ≠ Pixmap.None
  · simp only [if_pos hp]
    exact (RenderRun.call s _ (by rfl) (by rfl)).trans (tail (s.call (Call.XFreePixmap s.icon.pixmap)))
  · simp only [if_neg hp]
    exact tail s

theorem RenderRun.count_eq {tiles : List Canvas} {a b : List Call} (h : RenderRun tiles a b)
    (c : Call) (hc : c.isRender = false) : b.count c = a.count c := by
  obtain ⟨l, e, r, _⟩ := h
  have : l.count c = 0 := by
    apply List.count_eq_zero_of_not_mem
    intro hm
    rw [r c hm] at hc
    exact Bool.noConfusion hc
  rw [e, List.count_append, this, Nat.add_zero]

/-! ## The image state after each step of the resolver -/

theorem unset_icon_image_icon (s : St) :
    (unset_icon_image s).icon = { s.icon with file := none, file_image := none } := by
  rcases s with ⟨scr, ⟨core, owner, iw, name, file, img, px, mp, tt, st, sel, hl, sh, hid, step⟩, log⟩
  cases file <;> cases img <;> rfl

theorem unset_icon_image_scr (s : St) : (unset_icon_image s).scr = s.scr := by
  unfold unset_icon_image
  cases hf : s.icon.file <;> cases hi : s.icon.file_image <;> simp [hf, hi]

theorem unset_icon_image_count (s : St) (c : Call) (h1 : ∀ f, c ≠ Call.wfree f)
    (h2 : ∀ i, c ≠ Call.RReleaseImage i) :
    (unset_icon_image s).log.count c = s.log.count c := by
  unfold unset_icon_image
  cases hf : s.icon.file <;> cases hi : s.icon.file_image <;>
    simp [hf, hi, List.count_append, List.count_cons, Ne.symm (h1 _), Ne.symm (h2 _)]

theorem get_rimage_icon_from_default_icon_icon (E : Env) (s : St) :
    (get_rimage_icon_from_default_icon E s).icon =
      { s.icon with file := none, file_image := defaultImage E s.scr } := by
  rcases s with ⟨⟨nc, rw, d, t1, t2, t3, t4, li, tp⟩,
    ⟨core, owner, iw, name, file, img, px, mp, tt, st, sel, hl, sh, hid, step⟩, log⟩
  cases d <;> cases file <;> cases img <;> cases hE : E.get_default_image <;>
    simp [get_rimage_icon_from_default_icon, unset_icon_image, RRetainImage, defaultImage, hE,
      St.call]

theorem get_rimage_icon_from_default_icon_scr (E : Env) (s : St) :
    (get_rimage_icon_from_default_icon E s).scr =
      { s.scr with def_icon_rimage := defaultImage E s.scr } := by
  rcases s with ⟨⟨nc, rw, d, t1, t2, t3, t4, li, tp⟩,
    ⟨core, owner, iw, name, file, img, px, mp, tt, st, sel, hl, sh, hid, step⟩, log⟩
  cases d <;> cases file <;> cases img <;> cases hE : E.get_default_image <;>
    simp [get_rimage_icon_from_default_icon, unset_icon_image, RRetainImage, defaultImage, hE,
      St.call]

theorem get_rimage_icon_from_default_icon_loads (E : Env) (s : St) :
    (get_rimage_icon_from_default_icon E s).log.count Call.get_default_image =
      s.log.count Call.get_default_image + (if s.scr.def_icon_rimage = none then 1 else 0) := by
  rcases s with ⟨⟨nc, rw, d, t1, t2, t3, t4, li, tp⟩,
    ⟨core, owner, iw, name, file, img, px, mp, tt, st, sel, hl, sh, hid, step⟩, log⟩
  cases d <;> cases file <;> cases img <;> cases hE : E.get_default_image <;>
    simp [get_rimage_icon_from_default_icon, unset_icon_image, RRetainImage, hE,
      St.call, List.count_append, List.count_cons]

theorem get_rimage_icon_from_user_icon_image (E : Env) (s : St) :
    (get_rimage_icon_from_user_icon E s).icon.file_image =
      (match s.icon.file_image with
        | some image => some image
        | none => defaultImage E s.scr) := by
  unfold get_rimage_icon_from_user_icon
  cases h : s.icon.file_image
  · simp [get_rimage_icon_from_default_icon_icon]
  · simp [h]

theorem wIconUpdate_file_image (E : Env) (s : St) :
    (wIconUpdate E s).icon.file_image = (wIconUpdate_image E s).icon.file_image := by
  unfold wIconUpdate
  rw [update_icon_pixmap_icon]

theorem forcesUserIcon_iff (icon : WIcon) :
    (icon.owner.map (fun w => w.always_user_icon)) = some true ↔ forcesUserIcon icon := by
  unfold forcesUserIcon
  cases icon.owner <;> simp

theorem hasProtocolImage_iff (icon : WIcon) :
    (icon.owner.bind (fun w => w.net_icon_image)).isSome = true ↔ hasProtocolImage icon := by
  unfold hasProtocolImage
  cases h : icon.owner
  · simp
  · rename_i w
    cases h2 : w.net_icon_image <;> simp [h2]

theorem hasPixmapHint_iff (icon : WIcon) :
    ((icon.owner.bind (fun w => w.wm_hints)).map
      (fun hints => decide (hints.flags &&& IconPixmapHint ≠ 0))) = some true ↔
      hasPixmapHint icon := by
  unfold hasPixmapHint
  cases h : icon.owner
  · simp
  · rename_i w
    cases h2 : w.wm_hints <;> simp [h2]

theorem get_rimage_icon_from_wm_hints_scr (E : Env) (s : St) :
    (get_rimage_icon_from_wm_hints E s).2.scr = s.scr := by
  unfold get_rimage_icon_from_wm_hints
  cases ho : s.icon.owner with
  | none => rfl
  | some w =>
    cases hw : w.wm_hints with
    | none => simp only [hw]
    | some hints =>
      simp only [hw]
      split
      · rfl
      · cases get_wwindow_image_from_wmhints E w <;> rfl

/-- What `get_rimage_icon_from_wm_hints` returns for an owner whose hints carry
`IconPixmapHint`: nothing when `getSize` fails on `hints->icon_pixmap`, when that
pixmap is `None`, or when `RCreateImageFromDrawable` on it gives nothing; otherwise
what `wIconValidateIconSize` makes of the image created from the pixmap. -/
theorem get_rimage_icon_from_wm_hints_result (E : Env) (s : St) (w : WWindow)
    (hints : XWMHints) (ho : s.icon.owner = some w) (hw : w.wm_hints = some hints)
    (hf : hints.flags &&& IconPixmapHint ≠ 0) :
    (get_rimage_icon_from_wm_hints E s).1 =
      (if (E.getSize hints.icon_pixmap).status = false then none
        else if hints.icon_pixmap = None then none
        else
          match E.RCreateImageFromDrawable hints.icon_pixmap
              (if hints.flags &&& IconMaskHint ≠ 0 then hints.icon_mask else None) with
          | none => none
          | some raw => (wIconValidateIconSize E (some raw) E.wPreferences.icon_size).1) := by
  unfold get_rimage_icon_from_wm_hints
  simp only [ho, hw]
  by_cases hg : (E.getSize hints.icon_pixmap).status = false
  · simp only [hg, if_true]
  · simp only [hg, if_false]
    by_cases hp : hints.icon_pixmap = None
    · simp [get_wwindow_image_from_wmhints, hw, hp]
    · simp only [get_wwindow_image_from_wmhints, hw, hf, hp, ne_eq, not_false_eq_true, and_self,
        if_true, if_false]
      cases E.RCreateImageFromDrawable hints.icon_pixmap
        (if hints.flags &&& IconMaskHint ≠ 0 then hints.icon_mask else None) <;> rfl

/-- The image the icon holds after the branch of `wIconUpdate` for hints with an icon
pixmap: the image `get_rimage_icon_from_wm_hints` returns, or else the screen's
default, the stored image having been unset before. -/
theorem wIconUpdate_from_wm_hints_file_image (E : Env) (s : St) :
    (wIconUpdate_from_wm_hints E s).icon.file_image =
      (match (get_rimage_icon_from_wm_hints E (unset_icon_image s)).1 with
        | some image => some image
        | none => defaultImage E s.scr) := by
  unfold wIconUpdate_from_wm_hints
  cases hr : (get_rimage_icon_from_wm_hints E (unset_icon_image s)).1 with
  | some image => simp only [hr]
  | none =>
    simp only [hr]
    rw [get_rimage_icon_from_user_icon_image]
    simp only [get_rimage_icon_from_wm_hints_scr, unset_icon_image_scr]

/-- C3. `wIconUpdate` picks the image by the first condition that holds, in this
order: the owner forces the user icon, the icon has an icon window, the owner has a
`_NET_WM_ICON` image, the owner's hints carry `IconPixmapHint`, none of these.  Each
case names the path taken and the image the icon holds afterwards: (1) the stored
image or else the screen's default; (2) the image read from the icon window; (3) the
owner's protocol image itself, retained once; (4) the image that
`RCreateImageFromDrawable` creates from `hints->icon_pixmap` (with `hints->icon_mask`
when `IconMaskHint` is set), passed through `wIconValidateIconSize`, so that image
itself when it is within the size bound, whenever `getSize` succeeds on the pixmap,
the pixmap is not `None` and the image is created; and the screen's default when the
load gives nothing; (5) the stored image or else the default. -/
theorem wIconUpdate_priority (E : Env) (s : St) :
    (forcesUserIcon s.icon →
      wIconUpdate E s = update_icon_pixmap E (get_rimage_icon_from_user_icon E s) ∧
      (wIconUpdate E s).icon.file_image =
        (match s.icon.file_image with
          | some image => some image
          | none => defaultImage E s.scr)) ∧
    (¬ forcesUserIcon s.icon → s.icon.icon_win ≠ None →
      wIconUpdate E s = update_icon_pixmap E (get_rimage_icon_from_icon_win E s) ∧
      (wIconUpdate E s).icon.file_image = E.get_window_image_from_x11 s.icon.icon_win) ∧
    (¬ forcesUserIcon s.icon → s.icon.icon_win = None →
      ∀ w image, s.icon.owner = some w → w.net_icon_image = some image →
      wIconUpdate E s = update_icon_pixmap E (get_rimage_icon_from_x11 s) ∧
      (wIconUpdate E s).icon.file_image = some image ∧
      (wIconUpdate E s).log.count (Call.RRetainImage image) =
        s.log.count (Call.RRetainImage image) + 1) ∧
    (¬ forcesUserIcon s.icon → s.icon.icon_win = None → ¬ hasProtocolImage s.icon →
      ∀ w hints, s.icon.owner = some w → w.wm_hints = some hints →
      hints.flags &&& IconPixmapHint ≠ 0 →
      wIconUpdate E s = update_icon_pixmap E (wIconUpdate_from_wm_hints E s) ∧
      (∀ raw, (E.getSize hints.icon_pixmap).status = true → hints.icon_pixmap ≠ None →
        E.RCreateImageFromDrawable hints.icon_pixmap
          (if hints.flags &&& IconMaskHint ≠ 0 then hints.icon_mask else None) = some raw →
        (∀ image,
          (wIconValidateIconSize E (some raw) E.wPreferences.icon_size).1 = some image →
          (wIconUpdate E s).icon.file_image = some image) ∧
        (¬ (raw.width > toInt (E.wPreferences.icon_size + ICON_BORDER) ∨
            raw.height > toInt (E.wPreferences.icon_size + ICON_BORDER)) →
          (wIconUpdate E s).icon.file_image = some raw)) ∧
      ((E.getSize hints.icon_pixmap).status = false ∨ hints.icon_pixmap = None ∨
        E.RCreateImageFromDrawable hints.icon_pixmap
          (if hints.flags &&& IconMaskHint ≠ 0 then hints.icon_mask else None) = none →
        (wIconUpdate E s).icon.file_image = defaultImage E s.scr)) ∧
    (¬ forcesUserIcon s.icon → s.icon.icon_win = None → ¬ hasProtocolImage s.icon →
      ¬ hasPixmapHint s.icon →
      wIconUpdate E s = update_icon_pixmap E (get_rimage_icon_from_user_icon E s) ∧
      (wIconUpdate E s).icon.file_image =
        (match s.icon.file_image with
          | some image => some image
          | none => defaultImage E s.scr)) := by
  refine ⟨?_, ?_, ?_, ?_, ?_⟩
  · intro h1
    have e : wIconUpdate_image E s = get_rimage_icon_from_user_icon E s := by
      unfold wIconUpdate_image
      simp only [(forcesUserIcon_iff s.icon).mpr h1, if_true]
    refine ⟨by unfold wIconUpdate; rw [e], ?_⟩
    rw [wIconUpdate_file_image, e, get_rimage_icon_from_user_icon_image]
  · intro h1 h2
    have e : wIconUpdate_image E s = get_rimage_icon_from_icon_win E s := by
      unfold wIconUpdate_image
      simp only [mt (forcesUserIcon_iff s.icon).mp h1, if_false, if_pos h2]
    refine ⟨by unfold wIconUpdate; rw [e], ?_⟩
    rw [wIconUpdate_file_image, e]
    unfold get_rimage_icon_from_icon_win
    rfl
  · intro h1 h2 w image ho hn
    have h3 : hasProtocolImage s.icon := ⟨w, image, ho, hn⟩
    have e : wIconUpdate_image E s = get_rimage_icon_from_x11 s := by
      unfold wIconUpdate_image
      simp only [mt (forcesUserIcon_iff s.icon).mp h1, if_false, h2, ne_eq, not_true_eq_false,
        (hasProtocolImage_iff s.icon).mpr h3, if_true]
    have himg : (unset_icon_image s).icon.owner.bind (fun wwin => wwin.net_icon_image)
        = some image := by
      rw [unset_icon_image_icon]; simp [ho, hn]
    refine ⟨by unfold wIconUpdate; rw [e], ?_, ?_⟩
    · rw [wIconUpdate_file_image, e]
      unfold get_rimage_icon_from_x11
      simp only [himg]
    · unfold wIconUpdate
      rw [(update_icon_pixmap_log E _).count_eq _ (by rfl), e]
      unfold get_rimage_icon_from_x11
      simp only [himg, RRetainImage, St.call_log, List.count_append]
      rw [unset_icon_image_count _ _ (by intro f; exact Call.noConfusion)
        (by intro i; exact Call.noConfusion)]
      simp
  · intro h1 h2 h3 w hints ho hw hf
    have h4 : hasPixmapHint s.icon := ⟨w, hints, ho, hw, hf⟩
    have e : wIconUpdate_image E s = wIconUpdate_from_wm_hints E s := by
      unfold wIconUpdate_image
      simp only [mt (forcesUserIcon_iff s.icon).mp h1, if_false, h2, ne_eq, not_true_eq_false,
        mt (hasProtocolImage_iff s.icon).mp h3, (hasPixmapHint_iff s.icon).mpr h4, if_true,
        Bool.false_eq_true]
    have ho2 : (unset_icon_image s).icon.owner = some w := by
      rw [unset_icon_image_icon]; exact ho
    have hres := get_rimage_icon_from_wm_hints_result E (unset_icon_image s) w hints ho2 hw hf
    have himg : (wIconUpdate E s).icon.file_image =
        (match (get_rimage_icon_from_wm_hints E (unset_icon_image s)).1 with
          | some image => some image
          | none => defaultImage E s.scr) := by
      rw [wIconUpdate_file_image, e, wIconUpdate_from_wm_hints_file_image]
    refine ⟨by unfold wIconUpdate; rw [e], ?_, ?_⟩
    · intro raw hg hp hc
      have hload : (get_rimage_icon_from_wm_hints E (unset_icon_image s)).1 =
          (wIconValidateIconSize E (some raw) E.wPreferences.icon_size).1 := by
        rw [hres, if_neg (by rw [hg]; exact Bool.noConfusion), if_neg hp, hc]
      refine ⟨?_, ?_⟩
      · intro image hv
        rw [himg, hload, hv]
      · intro hb
        rw [himg, hload]
        simp only [wIconValidateIconSize, if_neg hb]
    · intro hfail
      have hload : (get_rimage_icon_from_wm_hints E (unset_icon_image s)).1 = none := by
        rw [hres]
        by_cases hg : (E.getSize hints.icon_pixmap).status = false
        · rw [if_pos hg]
        · rw [if_neg hg]
          by_cases hp : hints.icon_pixmap = None
          · rw [if_pos hp]
          · rw [if_neg hp]
            rcases hfail with hg2 | hp2 | hc
            · exact absurd hg2 hg
            · exact absurd hp2 hp
            · rw [hc]
      rw [himg, hload]
  · intro h1 h2 h3 h4
    have e : wIconUpdate_image E s = get_rimage_icon_from_user_icon E s := by
      unfold wIconUpdate_image
      simp only [mt (forcesUserIcon_iff s.icon).mp h1, if_false, h2, ne_eq, not_true_eq_false,
        mt (hasProtocolImage_iff s.icon).mp h3, mt (hasPixmapHint_iff s.icon).mp h4,
        Bool.false_eq_true]
    refine ⟨by unfold wIconUpdate; rw [e], ?_⟩
    rw [wIconUpdate_file_image, e, get_rimage_icon_from_user_icon_image]

/-- C3 on two icons.  The owner of `protocolState` supplies a `_NET_WM_ICON` image and
neither forces the user icon nor has an icon window: the third case applies, and the
icon holds the owner's image instance, retained once.  The owner of `hintedState` has
no such image and its hints carry `IconPixmapHint` with pixmap 77: the fourth case
applies, and the icon holds the image `RCreateImageFromDrawable` creates from pixmap
77, not the stored image it held before. -/
theorem wIconUpdate_priority_witness :
    (¬ forcesUserIcon protocolState.icon ∧ protocolState.icon.icon_win = None ∧
      protocolState.icon.owner = some protocolWindow ∧
      protocolWindow.net_icon_image = some { id := 9, width := 32, height := 32 } ∧
      wIconUpdate exampleEnv protocolState =
        update_icon_pixmap exampleEnv (get_rimage_icon_from_x11 protocolState) ∧
      (wIconUpdate exampleEnv protocolState).icon.file_image =
        some { id := 9, width := 32, height := 32 } ∧
      (wIconUpdate exampleEnv protocolState).log.count
          (Call.RRetainImage { id := 9, width := 32, height := 32 }) =
        protocolState.log.count
          (Call.RRetainImage { id := 9, width := 32, height := 32 }) + 1) ∧
    (¬ forcesUserIcon hintedState.icon ∧ hintedState.icon.icon_win = None ∧
      ¬ hasProtocolImage hintedState.icon ∧
      hintedState.icon.owner = some hintedWindow ∧
      hintedWindow.wm_hints =
        some { flags := IconPixmapHint, icon_pixmap := 77, icon_mask := 0, icon_window := 0 } ∧
      exampleEnv.RCreateImageFromDrawable 77 None =
        some { id := 177, width := 32, height := 32 } ∧
      hintedState.icon.file_image = some databaseImage ∧
      (wIconUpdate exampleEnv hintedState).icon.file_image =
        some { id := 177, width := 32, height := 32 }) :=
  ⟨⟨mt (forcesUserIcon_iff protocolState.icon).mpr (by decide), rfl, rfl, rfl,
      (wIconUpdate_priority exampleEnv protocolState).2.2.1
        (mt (forcesUserIcon_iff protocolState.icon).mpr (by decide)) rfl
        protocolWindow { id := 9, width := 32, height := 32 } rfl rfl⟩,
    ⟨mt (forcesUserIcon_iff hintedState.icon).mpr (by decide), rfl,
      mt (hasProtocolImage_iff hintedState.icon).mpr (by decide), rfl, rfl, rfl, rfl,
      (((wIconUpdate_priority exampleEnv hintedState).2.2.2.1
        (mt (forcesUserIcon_iff hintedState.icon).mpr (by decide)) rfl
        (mt (hasProtocolImage_iff hintedState.icon).mpr (by decide))
        hintedWindow
        { flags := IconPixmapHint, icon_pixmap := 77, icon_mask := 0, icon_window := 0 }
        rfl rfl (by decide)).2.1
        { id := 177, width := 32, height := 32 } rfl (by decide) rfl).2 (by decide)⟩⟩

/-- C4, evaluated.  The icon of `hintedState` holds the image of its stored file and
its owner's hints carry an icon pixmap.  When the pixmap loads, `wIconUpdate` leaves
the pixmap's image; when `XGetGeometry` fails, or when the drawable cannot be read,
it leaves the screen's default image and not the image of the stored file, which
`unset_icon_image` has released before the load is tried. -/
theorem wIconUpdate_pixmap_failure_drops_stored_image :
    hintedState.icon.owner = some hintedWindow ∧
    hintedWindow.always_user_icon = false ∧ hintedState.icon.icon_win = None ∧
    hintedWindow.net_icon_image = none ∧
    hintedWindow.wm_hints.map (fun hints => hints.flags &&& IconPixmapHint) = some IconPixmapHint ∧
    hintedState.icon.file_image = some databaseImage ∧
    hintedState.scr.def_icon_rimage = some { id := 1, width := 48, height := 48 } ∧
    (wIconUpdate exampleEnv hintedState).icon.file_image =
      some { id := 177, width := 32, height := 32 } ∧
    (wIconUpdate noGeometryEnv hintedState).icon.file_image =
      some { id := 1, width := 48, height := 48 } ∧
    (wIconUpdate noDrawableEnv hintedState).icon.file_image =
      some { id := 1, width := 48, height := 48 } ∧
    (wIconUpdate noGeometryEnv hintedState).icon.file_image ≠ some databaseImage ∧
    (wIconUpdate noDrawableEnv hintedState).icon.file_image ≠ some databaseImage ∧
    Call.RReleaseImage databaseImage ∈ (wIconUpdate noGeometryEnv hintedState).log := by
  decide

theorem get_rimage_icon_from_default_icon_retains (E : Env) (s : St) (d : RImage)
    (hd : defaultImage E s.scr = some d) :
    (get_rimage_icon_from_default_icon E s).log.count (Call.RRetainImage d) =
      s.log.count (Call.RRetainImage d) + 1 := by
  rcases s with ⟨⟨nc, rw, d0, t1, t2, t3, t4, li, tp⟩,
    ⟨core, owner, iw, name, file, img, px, mp, tt, st, sel, hl, sh, hid, step⟩, log⟩
  cases d0 <;> cases file <;> cases img <;> cases hE : E.get_default_image <;>
    simp_all [get_rimage_icon_from_default_icon, unset_icon_image, RRetainImage, defaultImage,
      St.call, List.count_append, List.count_cons]

theorem wIconUpdate_image_of_no_owner (E : Env) (s : St) (hown : s.icon.owner = none)
    (hwin : s.icon.icon_win = None) :
    wIconUpdate_image E s = get_rimage_icon_from_user_icon E s := by
  unfold wIconUpdate_image
  simp [hown, hwin]

theorem wIconUpdate_scr (E : Env) (s : St) :
    (wIconUpdate E s).scr = (wIconUpdate_image E s).scr := by
  unfold wIconUpdate
  rw [update_icon_pixmap_scr]

theorem wIconUpdate_count (E : Env) (s : St) (c : Call) (hc : c.isRender = false) :
    (wIconUpdate E s).log.count c = (wIconUpdate_image E s).log.count c := by
  unfold wIconUpdate
  exact (update_icon_pixmap_log E _).count_eq c hc

/-- C5. An icon with no owner, no icon window and no stored image, on a screen whose
default image is available (already in the slot, or produced by the loader as `d`):
`wIconUpdate` gives the icon that image and leaves it in the screen's slot, retaining
it once; the loader runs only if the slot was empty; a second `wIconUpdate` on the
icon, and a `wIconUpdate` on any other such icon of the screen, end with the same
instance `d` as the icon's image without another call of the loader. -/
theorem wIconUpdate_default_shared (E : Env) (s : St) (d : RImage)
    (hown : s.icon.owner = none) (hwin : s.icon.icon_win = None)
    (himg : s.icon.file_image = none) (hdef : defaultImage E s.scr = some d) :
    (wIconUpdate E s).icon.file_image = some d ∧
    (wIconUpdate E s).scr.def_icon_rimage = some d ∧
    (wIconUpdate E s).log.count (Call.RRetainImage d) =
      s.log.count (Call.RRetainImage d) + 1 ∧
    (wIconUpdate E s).log.count Call.get_default_image =
      s.log.count Call.get_default_image + (if s.scr.def_icon_rimage = none then 1 else 0) ∧
    (wIconUpdate E (wIconUpdate E s)).icon.file_image = some d ∧
    (wIconUpdate E (wIconUpdate E s)).log.count Call.get_default_image =
      (wIconUpdate E s).log.count Call.get_default_image ∧
    (∀ other : WIcon, other.owner = none → other.icon_win = None → other.file_image = none →
      (wIconUpdate E { scr := (wIconUpdate E s).scr, icon := other, log := (wIconUpdate E s).log }).icon.file_image = some d ∧
      (wIconUpdate E { scr := (wIconUpdate E s).scr, icon := other, log := (wIconUpdate E s).log }).log.count Call.get_default_image =
        (wIconUpdate E s).log.count Call.get_default_image) := by
  have e1 : wIconUpdate_image E s = get_rimage_icon_from_default_icon E s := by
    rw [wIconUpdate_image_of_no_owner E s hown hwin]
    unfold get_rimage_icon_from_user_icon
    simp [himg]
  have hown1 : (wIconUpdate E s).icon.owner = none := by
    unfold wIconUpdate
    rw [update_icon_pixmap_icon, e1, get_rimage_icon_from_default_icon_icon]
    exact hown
  have hwin1 : (wIconUpdate E s).icon.icon_win = None := by
    unfold wIconUpdate
    rw [update_icon_pixmap_icon, e1, get_rimage_icon_from_default_icon_icon]
    exact hwin
  have hscr1 : (wIconUpdate E s).scr.def_icon_rimage = some d := by
    rw [wIconUpdate_scr, e1, get_rimage_icon_from_default_icon_scr, hdef]
  have hf1 : (wIconUpdate E s).icon.file_image = some d := by
    rw [wIconUpdate_file_image, e1, get_rimage_icon_from_default_icon_icon, hdef]
  have e2 : wIconUpdate_image E (wIconUpdate E s) = wIconUpdate E s := by
    rw [wIconUpdate_image_of_no_owner E _ hown1 hwin1]
    unfold get_rimage_icon_from_user_icon
    simp [hf1]
  refine ⟨hf1, hscr1, ?_, ?_, ?_, ?_, ?_⟩
  · rw [wIconUpdate_count E s _ (by rfl), e1, get_rimage_icon_from_default_icon_retains E s d hdef]
  · rw [wIconUpdate_count E s _ (by rfl), e1, get_rimage_icon_from_default_icon_loads]
  · rw [wIconUpdate_file_image, e2, hf1]
  · rw [wIconUpdate_count E _ _ (by rfl), e2]
  · intro other ho hw hi
    have e3 : wIconUpdate_image E { scr := (wIconUpdate E s).scr, icon := other, log := (wIconUpdate E s).log } =
        get_rimage_icon_from_default_icon E { scr := (wIconUpdate E s).scr, icon := other, log := (wIconUpdate E s).log } := by
      rw [wIconUpdate_image_of_no_owner E _ ho hw]
      unfold get_rimage_icon_from_user_icon
      simp [hi]
    have hd3 : defaultImage E ({ scr := (wIconUpdate E s).scr, icon := other, log := (wIconUpdate E s).log } : St).scr = some d := by
      simp only [defaultImage, hscr1]
    constructor
    · rw [wIconUpdate_file_image, e3, get_rimage_icon_from_default_icon_icon, hd3]
    · rw [wIconUpdate_count E _ _ (by rfl), e3, get_rimage_icon_from_default_icon_loads]
      simp [hscr1]

/-- C5 on a fresh icon of a screen with an empty default slot: the loader's image
becomes the icon's image. -/
theorem wIconUpdate_default_shared_witness :
    freshState.icon.owner = none ∧ freshState.icon.icon_win = None ∧
    freshState.icon.file_image = none ∧
    defaultImage exampleEnv freshState.scr = some { id := 1, width := 48, height := 48 } ∧
    (wIconUpdate exampleEnv freshState).icon.file_image =
      some { id := 1, width := 48, height := 48 } ∧
    (wIconUpdate exampleEnv (wIconUpdate exampleEnv freshState)).log.count
        Call.get_default_image =
      (wIconUpdate exampleEnv freshState).log.count Call.get_default_image :=
  ⟨rfl, rfl, rfl, rfl,
    (wIconUpdate_default_shared exampleEnv freshState { id := 1, width := 48, height := 48 }
      rfl rfl rfl rfl).1,
    (wIconUpdate_default_shared exampleEnv freshState { id := 1, width := 48, height := 48 }
      rfl rfl rfl rfl).2.2.2.2.2.1⟩

theorem composeTile_congr (E : Env) (scr : WScreen) (a b : WIcon) (image : Option RImage)
    (h1 : a.tile_type = b.tile_type) (h2 : a.show_title = b.show_title)
    (h3 : a.shadowed = b.shadowed) (h4 : a.highlighted = b.highlighted) :
    composeTile E scr a image = composeTile E scr b image := by
  unfold composeTile tileTemplate blit
  rw [h1, h2, h3, h4]

theorem mem_of_convertedTiles (l : List Call) (tile : Canvas) (h : tile ∈ convertedTiles l) :
    Call.RConvertImage tile ∈ l := by
  unfold convertedTiles at h
  obtain ⟨c, hc, e⟩ := List.mem_filterMap.mp h
  cases c <;> simp at e
  subst e
  exact hc

theorem unset_icon_image_log (s : St) : ∃ l, (unset_icon_image s).log = s.log ++ l := by
  unfold unset_icon_image
  cases hf : s.icon.file <;> cases hi : s.icon.file_image
  · exact ⟨[], by simp [hf, hi]⟩
  · exact ⟨[_], by simp [hf, hi]; rfl⟩
  · exact ⟨[_], by simp [hf, hi]; rfl⟩
  · rename_i f img
    exact ⟨[Call.wfree f, Call.RReleaseImage img], by simp [hf, hi]⟩

/-- C6. `wIconChangeImageFile`: a null file name returns 1 and leaves the state as
it is.  For a file name, 0 is returned exactly when the name does not resolve on the
image path or the resolved file does not load, and then the icon (its path, image and
pixmap with it) and the screen are unchanged; when the name resolves to `path` and
the file loads as `image`, 1 is returned, the icon's image is `image`, its path is
`path`, and the pixmap is the rendering of the tile drawn with the new image (with no
image for a dockapp), handed to `RConvertImage` during the call. -/
theorem wIconChangeImageFile_contract (E : Env) (s : St) :
    wIconChangeImageFile E s none = (1, s) ∧
    ∀ file : CString,
      ((wIconChangeImageFile E s (some file)).1 = 0 ↔
        (E.WMAbsolutePathForFile file = none ∨
          ∃ path, E.WMAbsolutePathForFile file = some path ∧
            E.get_rimage_from_file path E.wPreferences.icon_size = none)) ∧
      ((wIconChangeImageFile E s (some file)).1 = 0 →
        (wIconChangeImageFile E s (some file)).2.icon = s.icon ∧
        (wIconChangeImageFile E s (some file)).2.scr = s.scr) ∧
      (∀ path image, E.WMAbsolutePathForFile file = some path →
        E.get_rimage_from_file path E.wPreferences.icon_size = some image →
        (wIconChangeImageFile E s (some file)).1 = 1 ∧
        (wIconChangeImageFile E s (some file)).2.icon.file_image = some image ∧
        (wIconChangeImageFile E s (some file)).2.icon.file = some path ∧
        (wIconChangeImageFile E s (some file)).2.icon.pixmap =
          (if E.RConvertImage (composeTile E s.scr s.icon
              (if s.icon.icon_win ≠ None then none else some image))
            then Pixmap.rendered (composeTile E s.scr s.icon
              (if s.icon.icon_win ≠ None then none else some image))
            else Pixmap.indeterminate) ∧
        ∃ l, (wIconChangeImageFile E s (some file)).2.log = s.log ++ l ∧
          Call.RConvertImage (composeTile E s.scr s.icon
            (if s.icon.icon_win ≠ None then none else some image)) ∈ l) := by
  refine ⟨rfl, fun file => ?_⟩
  cases hp : E.WMAbsolutePathForFile file with
  | none => simp [wIconChangeImageFile, hp]
  | some path =>
    cases hi : E.get_rimage_from_file path E.wPreferences.icon_size with
    | none =>
      simp only [wIconChangeImageFile, hp, hi]
      refine ⟨by simp [hi], by simp, ?_⟩
      intro p img e1 e2
      cases e1
      rw [hi] at e2
      cases e2
    | some image =>
      have htile : currentTile E
          { set_icon_image_from_image s (some image) with
            icon := { (set_icon_image_from_image s (some image)).icon with file := some path } } =
          composeTile E s.scr s.icon (if s.icon.icon_win ≠ None then none else some image) := by
        unfold currentTile set_icon_image_from_image
        simp only [unset_icon_image_icon, unset_icon_image_scr]
        exact composeTile_congr _ _ _ _ _ rfl rfl rfl rfl
      obtain ⟨l0, hl0⟩ := unset_icon_image_log s
      obtain ⟨l1, hl1, _, hc1⟩ := update_icon_pixmap_log E
          { set_icon_image_from_image s (some image) with
            icon := { (set_icon_image_from_image s (some image)).icon with file := some path } }
      rw [htile] at hc1
      refine ⟨by simp [wIconChangeImageFile, hp, hi], by simp [wIconChangeImageFile, hp, hi], ?_⟩
      intro path' image' e1 e2
      cases e1
      rw [hi] at e2
      cases e2
      have hr : wIconChangeImageFile E s (some file) = (1, (update_icon_pixmap E
          { set_icon_image_from_image s (some image) with
            icon := { (set_icon_image_from_image s (some image)).icon with file := some path } }).call
          (Call.wfree path)) := by
        simp only [wIconChangeImageFile, hp, hi]
      rw [hr]
      refine ⟨rfl, ?_, ?_, ?_, l0 ++ l1 ++ [Call.wfree path], ?_, ?_⟩
      · simp only [St.call_icon, update_icon_pixmap_icon]
        rfl
      · simp only [St.call_icon, update_icon_pixmap_icon]
      · simp only [St.call_icon, update_icon_pixmap_icon, htile]
      · rw [St.call_log, hl1]
        show (unset_icon_image s).log ++ l1 ++ [Call.wfree path] = _
        rw [hl0]
        simp only [List.append_assoc]
      · have : Call.RConvertImage (composeTile E s.scr s.icon
            (if s.icon.icon_win ≠ None then none else some image)) ∈ l1 :=
          mem_of_convertedTiles _ _ (by rw [hc1]; exact List.mem_singleton.mpr rfl)
        exact List.mem_append_left _ (List.mem_append_right _ this)

/-! ## The choice of the image neither reads nor writes the pixmap and the log -/

theorem unset_icon_image_image (s : St) :
    (unset_icon_image s).image = (unset_icon_image s.image).image := by
  rcases s with ⟨scr, ⟨core, owner, iw, name, file, img, px, mp, tt, st, sel, hl, sh, hid, step⟩, log⟩
  cases file <;> cases img <;> rfl

theorem get_rimage_icon_from_default_icon_image (E : Env) (s : St) :
    (get_rimage_icon_from_default_icon E s).image =
      (get_rimage_icon_from_default_icon E s.image).image := by
  rcases s with ⟨⟨nc, rw, d, t1, t2, t3, t4, li, tp⟩,
    ⟨core, owner, iw, name, file, img, px, mp, tt, st, sel, hl, sh, hid, step⟩, log⟩
  cases d <;> cases file <;> cases img <;> cases hE : E.get_default_image <;>
    simp [get_rimage_icon_from_default_icon, unset_icon_image, RRetainImage, hE, St.call, St.image]

theorem get_rimage_icon_from_user_icon_image' (E : Env) (s : St) :
    (get_rimage_icon_from_user_icon E s).image =
      (get_rimage_icon_from_user_icon E s.image).image := by
  unfold get_rimage_icon_from_user_icon
  cases h : s.icon.file_image
  · have : s.image.icon.file_image = none := h
    simp only [this]
    exact get_rimage_icon_from_default_icon_image E s
  · have : s.image.icon.file_image = some _ := h
    simp only [this]
    rfl

theorem get_rimage_icon_from_icon_win_image (E : Env) (s : St) :
    (get_rimage_icon_from_icon_win E s).image =
      (get_rimage_icon_from_icon_win E s.image).image := by
  rcases s with ⟨scr, ⟨core, owner, iw, name, file, img, px, mp, tt, st, sel, hl, sh, hid, step⟩, log⟩
  cases file <;> cases img <;> rfl

theorem get_rimage_icon_from_x11_image (s : St) :
    (get_rimage_icon_from_x11 s).image = (get_rimage_icon_from_x11 s.image).image := by
  rcases s with ⟨scr, ⟨core, owner, iw, name, file, img, px, mp, tt, st, sel, hl, sh, hid, step⟩, log⟩
  rcases owner with _ | w
  · cases file <;> cases img <;> rfl
  · cases hn : w.net_icon_image <;> cases file <;> cases img <;>
      simp [get_rimage_icon_from_x11, unset_icon_image, RRetainImage, St.call, St.image, hn]

theorem get_rimage_icon_from_wm_hints_image (E : Env) (s : St) :
    (get_rimage_icon_from_wm_hints E s).1 = (get_rimage_icon_from_wm_hints E s.image).1 ∧
    (get_rimage_icon_from_wm_hints E s).2.image =
      (get_rimage_icon_from_wm_hints E s.image).2.image := by
  rcases s with ⟨scr, ⟨core, owner, iw, name, file, img, px, mp, tt, st, sel, hl, sh, hid, step⟩, log⟩
  rcases owner with _ | w
  · exact ⟨rfl, rfl⟩
  · cases hh : w.wm_hints with
    | none => simp [get_rimage_icon_from_wm_hints, St.image, hh]
    | some hints =>
      by_cases hg : (E.getSize hints.icon_pixmap).status = false
      · simp [get_rimage_icon_from_wm_hints, St.image, hh, hg]
      · cases hi : get_wwindow_image_from_wmhints E w <;>
          simp [get_rimage_icon_from_wm_hints, St.image, hh, hg, hi]

theorem image_idem (s : St) : s.image.image = s.image := rfl

theorem image_file_image (s : St) (image : Option RImage) :
    ({ s with icon := { s.icon with file_image := image } } : St).image =
      ({ s.image with icon := { s.image.icon with file_image := image } } : St).image := rfl

theorem image_congr {f : St → St} (hf : ∀ s, (f s).image = (f s.image).image) {a b : St}
    (h : a.image = b.image) : (f a).image = (f b).image := by
  rw [hf a, hf b, h]

theorem wIconUpdate_from_wm_hints_image (E : Env) (s : St) :
    (wIconUpdate_from_wm_hints E s).image = (wIconUpdate_from_wm_hints E s.image).image := by
  have key : ∀ a b : Option RImage × St, a.1 = b.1 → a.2.image = b.2.image →
      (match a.1 with
        | none => get_rimage_icon_from_user_icon E
            { a.2 with icon := { a.2.icon with file_image := none } }
        | some v => { a.2 with icon := { a.2.icon with file_image := some v } }).image =
      (match b.1 with
        | none => get_rimage_icon_from_user_icon E
            { b.2 with icon := { b.2.icon with file_image := none } }
        | some v => { b.2 with icon := { b.2.icon with file_image := some v } }).image := by
    intro a b h1 h2
    have h3 : ∀ x, ({ a.2 with icon := { a.2.icon with file_image := x } } : St).image =
        ({ b.2 with icon := { b.2.icon with file_image := x } } : St).image := by
      intro x
      rw [image_file_image, h2, ← image_file_image]
    rw [h1]
    cases b.1 with
    | none => exact image_congr (get_rimage_icon_from_user_icon_image' E) (h3 none)
    | some v => exact h3 (some v)
  have h1 := get_rimage_icon_from_wm_hints_image E (unset_icon_image s)
  have h2 := get_rimage_icon_from_wm_hints_image E (unset_icon_image s.image)
  rw [unset_icon_image_image s] at h1
  have e1 : (get_rimage_icon_from_wm_hints E (unset_icon_image s)).1 =
      (get_rimage_icon_from_wm_hints E (unset_icon_image s.image)).1 := by rw [h1.1, h2.1]
  have e2 : (get_rimage_icon_from_wm_hints E (unset_icon_image s)).2.image =
      (get_rimage_icon_from_wm_hints E (unset_icon_image s.image)).2.image := by rw [h1.2, h2.2]
  have := key _ _ e1 e2
  unfold wIconUpdate_from_wm_hints
  cases hr : (get_rimage_icon_from_wm_hints E (unset_icon_image s.image)).1 with
  | none =>
    rw [hr] at e1
    simp only [e1, hr] at this ⊢
    exact this
  | some v =>
    rw [hr] at e1
    simp only [e1, hr] at this ⊢
    exact this

theorem wIconUpdate_image_image (E : Env) (s : St) :
    (wIconUpdate_image E s).image = (wIconUpdate_image E s.image).image := by
  unfold wIconUpdate_image
  have ho : s.image.icon.owner = s.icon.owner := rfl
  have hw : s.image.icon.icon_win = s.icon.icon_win := rfl
  simp only [ho, hw]
  split_ifs
  · exact get_rimage_icon_from_user_icon_image' E s
  · exact get_rimage_icon_from_icon_win_image E s
  · exact get_rimage_icon_from_x11_image s
  · exact wIconUpdate_from_wm_hints_image E s
  · exact get_rimage_icon_from_user_icon_image' E s

/-! ## Choosing the image twice -/

theorem clearIconPixmapHint_land (flags : Nat) :
    clearIconPixmapHint flags &&& IconPixmapHint = 0 := by
  unfold clearIconPixmapHint IconPixmapHint
  rw [Nat.land_assoc]
  show flags &&& 0 = 0
  exact Nat.and_zero flags

theorem get_rimage_icon_from_user_icon_twice (E : Env) (s : St) :
    (get_rimage_icon_from_user_icon E (get_rimage_icon_from_user_icon E s)).image =
      (get_rimage_icon_from_user_icon E s).image := by
  rcases s with ⟨⟨nc, rw, d, t1, t2, t3, t4, li, tp⟩,
    ⟨core, owner, iw, name, file, img, px, mp, tt, st, sel, hl, sh, hid, step⟩, log⟩
  cases d <;> cases file <;> cases img <;> cases hE : E.get_default_image <;>
    simp [get_rimage_icon_from_user_icon, get_rimage_icon_from_default_icon, unset_icon_image,
      RRetainImage, hE, St.call, St.image]

theorem get_rimage_icon_from_user_icon_frame (E : Env) (s : St) :
    (get_rimage_icon_from_user_icon E s).icon.owner = s.icon.owner ∧
    (get_rimage_icon_from_user_icon E s).icon.icon_win = s.icon.icon_win := by
  unfold get_rimage_icon_from_user_icon
  cases h : s.icon.file_image
  · simp [get_rimage_icon_from_default_icon_icon]
  · simp

theorem get_rimage_icon_from_icon_win_twice (E : Env) (s : St) :
    (get_rimage_icon_from_icon_win E (get_rimage_icon_from_icon_win E s)).image =
      (get_rimage_icon_from_icon_win E s).image := by
  rcases s with ⟨scr, ⟨core, owner, iw, name, file, img, px, mp, tt, st, sel, hl, sh, hid, step⟩, log⟩
  cases file <;> cases img <;> cases hE : E.get_window_image_from_x11 iw <;>
    simp [get_rimage_icon_from_icon_win, unset_icon_image, hE, St.call, St.image]

theorem get_rimage_icon_from_icon_win_frame (E : Env) (s : St) :
    (get_rimage_icon_from_icon_win E s).icon.owner = s.icon.owner ∧
    (get_rimage_icon_from_icon_win E s).icon.icon_win = s.icon.icon_win := by
  unfold get_rimage_icon_from_icon_win
  simp [unset_icon_image_icon]

theorem get_rimage_icon_from_x11_twice (s : St) :
    (get_rimage_icon_from_x11 (get_rimage_icon_from_x11 s)).image =
      (get_rimage_icon_from_x11 s).image := by
  rcases s with ⟨scr, ⟨core, owner, iw, name, file, img, px, mp, tt, st, sel, hl, sh, hid, step⟩, log⟩
  rcases owner with _ | w
  · cases file <;> cases img <;> rfl
  · cases hn : w.net_icon_image <;> cases file <;> cases img <;>
      simp [get_rimage_icon_from_x11, unset_icon_image, RRetainImage, St.call, St.image, hn]

theorem get_rimage_icon_from_x11_frame (s : St) :
    (get_rimage_icon_from_x11 s).icon.owner = s.icon.owner ∧
    (get_rimage_icon_from_x11 s).icon.icon_win = s.icon.icon_win := by
  unfold get_rimage_icon_from_x11
  simp only [unset_icon_image_icon]
  cases h : s.icon.owner.bind (fun wwin => wwin.net_icon_image) <;>
    simp [RRetainImage, unset_icon_image_icon]

theorem wIconUpdate_from_wm_hints_twice (E : Env) (s : St)
    (h1 : ¬ (s.icon.owner.map (fun w => w.always_user_icon)) = some true)
    (h2 : ¬ s.icon.icon_win ≠ None)
    (h3 : ¬ (s.icon.owner.bind (fun w => w.net_icon_image)).isSome = true)
    (h4 : ((s.icon.owner.bind (fun w => w.wm_hints)).map
      (fun hints => decide (hints.flags &&& IconPixmapHint ≠ 0))) = some true) :
    (wIconUpdate_image E (wIconUpdate_from_wm_hints E s)).image =
      (wIconUpdate_from_wm_hints E s).image := by
  rcases s with ⟨⟨nc, rw, d, t1, t2, t3, t4, li, tp⟩,
    ⟨core, owner, iw, name, file, img, px, mp, tt, st, sel, hl, sh, hid, step⟩, log⟩
  rcases owner with _ | w
  · simp at h4
  · cases hh : w.wm_hints with
    | none => simp [hh] at h4
    | some hints =>
      simp [hh] at h1 h2 h3 h4
      have hc := clearIconPixmapHint_land hints.flags
      by_cases hg : (E.getSize hints.icon_pixmap).status = false
      · cases d <;> cases file <;> cases img <;> cases hE : E.get_default_image <;>
          simp [wIconUpdate_image, wIconUpdate_from_wm_hints, get_rimage_icon_from_wm_hints,
            get_rimage_icon_from_user_icon, get_rimage_icon_from_default_icon, unset_icon_image,
            RRetainImage, hE, St.call, St.image, hh, hg, h1, h2, h3, h4, hc]
      · cases hW : get_wwindow_image_from_wmhints E w with
        | none =>
          cases d <;> cases file <;> cases img <;> cases hE : E.get_default_image <;>
            simp [wIconUpdate_image, wIconUpdate_from_wm_hints, get_rimage_icon_from_wm_hints,
              get_rimage_icon_from_user_icon, get_rimage_icon_from_default_icon, unset_icon_image,
              RRetainImage, hE, St.call, St.image, hh, hg, h1, h2, h3, h4, hW]
        | some image =>
          cases hV : (wIconValidateIconSize E (some image) E.wPreferences.icon_size).1 <;>
          cases d <;> cases file <;> cases img <;> cases hE : E.get_default_image <;>
            simp [wIconUpdate_image, wIconUpdate_from_wm_hints, get_rimage_icon_from_wm_hints,
              get_rimage_icon_from_user_icon, get_rimage_icon_from_default_icon, unset_icon_image,
              RRetainImage, hE, St.call, St.image, hh, hg, h1, h2, h3, h4, hW, hV]

theorem wIconUpdate_image_twice (E : Env) (s : St) :
    (wIconUpdate_image E (wIconUpdate_image E s)).image = (wIconUpdate_image E s).image := by
  by_cases c1 : (s.icon.owner.map (fun w => w.always_user_icon)) = some true
  · have e : wIconUpdate_image E s = get_rimage_icon_from_user_icon E s := by
      unfold wIconUpdate_image; simp only [c1, if_true]
    have e' : wIconUpdate_image E (get_rimage_icon_from_user_icon E s) =
        get_rimage_icon_from_user_icon E (get_rimage_icon_from_user_icon E s) := by
      unfold wIconUpdate_image
      simp only [(get_rimage_icon_from_user_icon_frame E s).1, c1, if_true]
    rw [e, e', get_rimage_icon_from_user_icon_twice]
  by_cases c2 : s.icon.icon_win ≠ None
  · have e : wIconUpdate_image E s = get_rimage_icon_from_icon_win E s := by
      unfold wIconUpdate_image; simp only [c1, if_false, c2, if_true, ne_eq, not_false_eq_true]
    have e' : wIconUpdate_image E (get_rimage_icon_from_icon_win E s) =
        get_rimage_icon_from_icon_win E (get_rimage_icon_from_icon_win E s) := by
      unfold wIconUpdate_image
      simp only [(get_rimage_icon_from_icon_win_frame E s).1,
        (get_rimage_icon_from_icon_win_frame E s).2, c1, if_false, c2, if_true, ne_eq,
        not_false_eq_true]
    rw [e, e', get_rimage_icon_from_icon_win_twice]
  by_cases c3 : (s.icon.owner.bind (fun w => w.net_icon_image)).isSome = true
  · have e : wIconUpdate_image E s = get_rimage_icon_from_x11 s := by
      unfold wIconUpdate_image; simp only [c1, if_false, c2, c3, if_true]
    have e' : wIconUpdate_image E (get_rimage_icon_from_x11 s) =
        get_rimage_icon_from_x11 (get_rimage_icon_from_x11 s) := by
      unfold wIconUpdate_image
      simp only [(get_rimage_icon_from_x11_frame s).1, (get_rimage_icon_from_x11_frame s).2,
        c1, if_false, c2, c3, if_true]
    rw [e, e', get_rimage_icon_from_x11_twice]
  by_cases c4 : ((s.icon.owner.bind (fun w => w.wm_hints)).map
      (fun hints => decide (hints.flags &&& IconPixmapHint ≠ 0))) = some true
  · have e : wIconUpdate_image E s = wIconUpdate_from_wm_hints E s := by
      unfold wIconUpdate_image; simp only [c1, if_false, c2, c3, c4, if_true, Bool.false_eq_true]
    rw [e]
    exact wIconUpdate_from_wm_hints_twice E s c1 c2 c3 c4
  · have e : wIconUpdate_image E s = get_rimage_icon_from_user_icon E s := by
      unfold wIconUpdate_image; simp only [c1, if_false, c2, c3, c4, Bool.false_eq_true]
    have e' : wIconUpdate_image E (get_rimage_icon_from_user_icon E s) =
        get_rimage_icon_from_user_icon E (get_rimage_icon_from_user_icon E s) := by
      unfold wIconUpdate_image
      simp only [(get_rimage_icon_from_user_icon_frame E s).1,
        (get_rimage_icon_from_user_icon_frame E s).2, c1, if_false, c2, c3, c4, Bool.false_eq_true]
    rw [e, e', get_rimage_icon_from_user_icon_twice]

theorem update_icon_pixmap_image (E : Env) (s : St) : (update_icon_pixmap E s).image = s.image := by
  unfold St.image
  rw [update_icon_pixmap_icon, update_icon_pixmap_scr]

theorem currentTile_image (E : Env) (s : St) : currentTile E s.image = currentTile E s := rfl

/-! ## The choice of the image converts no tile -/

theorem unset_icon_image_tiles (s : St) :
    convertedTiles (unset_icon_image s).log = convertedTiles s.log := by
  unfold unset_icon_image
  cases hf : s.icon.file <;> cases hi : s.icon.file_image <;>
    simp [hf, hi, convertedTiles, List.filterMap_append]

theorem get_rimage_icon_from_default_icon_tiles (E : Env) (s : St) :
    convertedTiles (get_rimage_icon_from_default_icon E s).log = convertedTiles s.log := by
  rcases s with ⟨⟨nc, rw, d, t1, t2, t3, t4, li, tp⟩,
    ⟨core, owner, iw, name, file, img, px, mp, tt, st, sel, hl, sh, hid, step⟩, log⟩
  cases d <;> cases file <;> cases img <;> cases hE : E.get_default_image <;>
    simp [get_rimage_icon_from_default_icon, unset_icon_image, RRetainImage, hE, St.call,
      convertedTiles, List.filterMap_append]

theorem get_rimage_icon_from_user_icon_tiles (E : Env) (s : St) :
    convertedTiles (get_rimage_icon_from_user_icon E s).log = convertedTiles s.log := by
  unfold get_rimage_icon_from_user_icon
  cases h : s.icon.file_image
  · exact get_rimage_icon_from_default_icon_tiles E s
  · rfl

theorem get_rimage_icon_from_icon_win_tiles (E : Env) (s : St) :
    convertedTiles (get_rimage_icon_from_icon_win E s).log = convertedTiles s.log := by
  unfold get_rimage_icon_from_icon_win
  simp only [unset_icon_image_tiles, St.call_log]
  simp [convertedTiles, List.filterMap_append]

theorem get_rimage_icon_from_x11_tiles (s : St) :
    convertedTiles (get_rimage_icon_from_x11 s).log = convertedTiles s.log := by
  have hr : ∀ (t : St) (image : Option RImage),
      convertedTiles (RRetainImage t image).log = convertedTiles t.log := by
    intro t image
    cases image <;> simp [RRetainImage, convertedTiles, List.filterMap_append]
  unfold get_rimage_icon_from_x11
  show convertedTiles (RRetainImage (unset_icon_image s) _).log = _
  rw [hr, unset_icon_image_tiles]

theorem get_rimage_icon_from_wm_hints_tiles (E : Env) (s : St) :
    convertedTiles (get_rimage_icon_from_wm_hints E s).2.log = convertedTiles s.log := by
  unfold get_rimage_icon_from_wm_hints
  cases ho : s.icon.owner with
  | none => rfl
  | some w =>
    cases hh : w.wm_hints with
    | none => simp only [hh]
    | some hints =>
      simp only [hh]
      split
      · rfl
      · split
        · rfl
        · simp only [wIconValidateIconSize]
          split <;> simp [convertedTiles, List.filterMap_append]

theorem wIconUpdate_from_wm_hints_tiles (E : Env) (s : St) :
    convertedTiles (wIconUpdate_from_wm_hints E s).log = convertedTiles s.log := by
  unfold wIconUpdate_from_wm_hints
  simp only
  split
  · rw [get_rimage_icon_from_user_icon_tiles]
    exact (get_rimage_icon_from_wm_hints_tiles E _).trans (unset_icon_image_tiles s)
  · exact (get_rimage_icon_from_wm_hints_tiles E _).trans (unset_icon_image_tiles s)

theorem wIconUpdate_image_tiles (E : Env) (s : St) :
    convertedTiles (wIconUpdate_image E s).log = convertedTiles s.log := by
  unfold wIconUpdate_image
  simp only
  split_ifs
  · exact get_rimage_icon_from_user_icon_tiles E s
  · exact get_rimage_icon_from_icon_win_tiles E s
  · exact get_rimage_icon_from_x11_tiles s
  · exact wIconUpdate_from_wm_hints_tiles E s
  · exact get_rimage_icon_from_user_icon_tiles E s

theorem wIconUpdate_tiles (E : Env) (s : St) :
    convertedTiles (wIconUpdate E s).log =
      convertedTiles s.log ++ [currentTile E (wIconUpdate_image E s)] := by
  obtain ⟨l, hl, _, hc⟩ := update_icon_pixmap_log E (wIconUpdate_image E s)
  unfold wIconUpdate
  rw [hl]
  unfold convertedTiles at hc ⊢
  rw [List.filterMap_append, hc]
  exact congrArg (· ++ _) (wIconUpdate_image_tiles E s)

/-- C7. Two calls of `wIconUpdate` in a row, in the same environment: the second call
draws the same tile as the first (same template, same image and blit geometry, same
shadow and highlight overlays), so the tiles handed to `RConvertImage` by the two
calls are equal; the icon keeps the image the first call gave it (on a fresh icon,
the default image); and when the tile converts, both calls leave the pixmap that
renders it. -/
theorem wIconUpdate_idempotent (E : Env) (s : St) :
    ∃ tile : Canvas,
      convertedTiles (wIconUpdate E s).log = convertedTiles s.log ++ [tile] ∧
      convertedTiles (wIconUpdate E (wIconUpdate E s)).log =
        convertedTiles s.log ++ [tile, tile] ∧
      (wIconUpdate E (wIconUpdate E s)).icon.file_image = (wIconUpdate E s).icon.file_image ∧
      (E.RConvertImage tile = true →
        (wIconUpdate E s).icon.pixmap = Pixmap.rendered tile ∧
        (wIconUpdate E (wIconUpdate E s)).icon.pixmap = Pixmap.rendered tile) := by
  have himg : (wIconUpdate_image E (wIconUpdate E s)).image = (wIconUpdate_image E s).image := by
    rw [wIconUpdate_image_image]
    unfold wIconUpdate
    rw [update_icon_pixmap_image, ← wIconUpdate_image_image, wIconUpdate_image_twice]
  have htile : currentTile E (wIconUpdate_image E (wIconUpdate E s)) =
      currentTile E (wIconUpdate_image E s) := by
    rw [← currentTile_image, himg, currentTile_image]
  refine ⟨currentTile E (wIconUpdate_image E s), wIconUpdate_tiles E s, ?_, ?_, ?_⟩
  · rw [wIconUpdate_tiles, wIconUpdate_tiles, htile, List.append_assoc]
    rfl
  · rw [wIconUpdate_file_image, wIconUpdate_file_image]
    exact congrArg (fun t : St => t.icon.file_image) himg |> fun h => by simpa [St.image] using h
  · intro hc
    constructor
    · unfold wIconUpdate
      rw [update_icon_pixmap_icon]
      simp only [hc, if_true]
    · have : wIconUpdate E (wIconUpdate E s) =
          update_icon_pixmap E (wIconUpdate_image E (wIconUpdate E s)) := rfl
      rw [this, update_icon_pixmap_icon, htile]
      simp only [hc, if_true]

/-! ## The gesture loop -/

theorem miniwindowMouseDown_loop_append (E : Env) (wwin : WWindow) (dx dy : Int)
    (clickButton : Nat) (es es' : List XEvent) :
    ∀ g g' : Gesture, miniwindowMouseDown_loop E wwin dx dy clickButton g es = Outcome.blocked g' →
      miniwindowMouseDown_loop E wwin dx dy clickButton g (es ++ es') =
        miniwindowMouseDown_loop E wwin dx dy clickButton g' es' := by
  induction es with
  | nil =>
    intro g g' h
    simp only [miniwindowMouseDown_loop, Outcome.blocked.injEq] at h
    rw [h, List.nil_append]
  | cons ev rest ih =>
    intro g g' h
    cases ev with
    | Expose =>
      simp only [miniwindowMouseDown_loop, List.cons_append] at h ⊢
      exact ih _ _ h
    | MotionNotify mx my xr yr =>
      by_cases hg : g.grabbed = false
      · by_cases ht : ((dx - mx).natAbs : Int) ≥ E.MOVE_THRESHOLD ∨
            ((dy - my).natAbs : Int) ≥ E.MOVE_THRESHOLD
        · simp only [miniwindowMouseDown_loop, List.cons_append, hg, ht, if_true] at h ⊢
          exact ih _ _ h
        · simp only [miniwindowMouseDown_loop, List.cons_append, hg, ht, if_true, if_false] at h ⊢
          exact ih _ _ h
      · simp only [miniwindowMouseDown_loop, List.cons_append, hg, if_false] at h ⊢
        exact ih _ _ h
    | ButtonPress b =>
      simp only [miniwindowMouseDown_loop, List.cons_append] at h ⊢
      exact ih _ _ h
    | ButtonRelease b =>
      simp only [miniwindowMouseDown_loop, List.cons_append] at h ⊢
      split at h
      · rename_i hb
        simp only [if_pos hb]
        exact ih _ _ h
      · exact Outcome.noConfusion h

/-- While no release of the pressed button arrives, the loop keeps waiting: it has
grabbed the cursor exactly if it had before or some motion reached the threshold, it
has not released the pointer, and it has left the icon and the screen alone. -/
theorem miniwindowMouseDown_loop_waits (E : Env) (wwin : WWindow) (dx dy : Int)
    (clickButton : Nat) (es : List XEvent) (hes : XEvent.ButtonRelease clickButton ∉ es) :
    ∀ g : Gesture, ∃ g', miniwindowMouseDown_loop E wwin dx dy clickButton g es =
        Outcome.blocked g' ∧
      g'.grabbed = (g.grabbed || es.any (reachesThreshold E dx dy)) ∧
      (g'.grabbed = false → g'.x = g.x ∧ g'.y = g.y) ∧
      g'.s.log.count Call.XUngrabPointer = g.s.log.count Call.XUngrabPointer ∧
      g'.s.icon = g.s.icon ∧ g'.s.scr = g.s.scr := by
  induction es with
  | nil =>
    intro g
    exact ⟨g, rfl, by simp, fun _ => ⟨rfl, rfl⟩, rfl, rfl, rfl⟩
  | cons ev rest ih =>
    intro g
    have hrest : XEvent.ButtonRelease clickButton ∉ rest := fun h => hes (List.mem_cons_of_mem _ h)
    cases ev with
    | Expose =>
      obtain ⟨g', h, hg, hp, hc, hi, hs⟩ := ih hrest
        { g with s := g.s.call (Call.WMHandleEvent XEvent.Expose) }
      refine ⟨g', by simp only [miniwindowMouseDown_loop]; exact h, ?_, hp, ?_, hi, hs⟩
      · simpa [reachesThreshold] using hg
      · simpa [List.count_append, List.count_cons] using hc
    | MotionNotify mx my xr yr =>
      rcases g with ⟨gx, gy, gg, gh, gs⟩
      cases gg with
      | false =>
        by_cases ht : ((dx - mx).natAbs : Int) ≥ E.MOVE_THRESHOLD ∨
            ((dy - my).natAbs : Int) ≥ E.MOVE_THRESHOLD
        · obtain ⟨g', h, hg, hp, hc, hi, hs⟩ := ih hrest
            { x := xr - dx, y := yr - dy, grabbed := true, hasMoved := true,
              s := (gs.call Call.XChangeActivePointerGrab).call
                (Call.XMoveWindow gs.icon.core.window (xr - dx) (yr - dy)) }
          simp only [Bool.true_or] at hg
          refine ⟨g', ?_, ?_, ?_, ?_, hi, hs⟩
          · simp only [miniwindowMouseDown_loop, ht, if_true]
            exact h
          · have hr : reachesThreshold E dx dy (XEvent.MotionNotify mx my xr yr) = true := by
              simp only [reachesThreshold]
              exact decide_eq_true ht
            rw [hg, List.any_cons, hr]
            rfl
          · intro hf
            rw [hg] at hf
            exact Bool.noConfusion hf
          · simpa [List.count_append, List.count_cons] using hc
        · obtain ⟨g', h, hg, hp, hc, hi, hs⟩ := ih hrest
            { x := gx, y := gy, grabbed := false, hasMoved := true, s := gs }
          refine ⟨g', ?_, ?_, hp, hc, hi, hs⟩
          · simp only [miniwindowMouseDown_loop, ht, if_true, if_false]
            exact h
          · have hr : reachesThreshold E dx dy (XEvent.MotionNotify mx my xr yr) = false := by
              simp only [reachesThreshold]
              exact decide_eq_false ht
            rw [hg, List.any_cons, hr]
            rfl
      | true =>
        obtain ⟨g', h, hg, hp, hc, hi, hs⟩ := ih hrest
          { x := xr - dx, y := yr - dy, grabbed := true, hasMoved := true,
            s := gs.call (Call.XMoveWindow gs.icon.core.window (xr - dx) (yr - dy)) }
        simp only [Bool.true_or] at hg
        refine ⟨g', ?_, ?_, ?_, ?_, hi, hs⟩
        · simp only [miniwindowMouseDown_loop, Bool.true_eq_false, if_false]
          exact h
        · simp [hg]
        · intro hf
          rw [hg] at hf
          exact Bool.noConfusion hf
        · simpa [List.count_append, List.count_cons] using hc
    | ButtonPress b =>
      obtain ⟨g', h, hg, hp, hc, hi, hs⟩ := ih hrest g
      refine ⟨g', by simp only [miniwindowMouseDown_loop]; exact h, ?_, hp, hc, hi, hs⟩
      simpa [reachesThreshold] using hg
    | ButtonRelease b =>
      have hb : b ≠ clickButton := by
        intro e
        subst e
        exact hes (List.mem_cons_self _ _)
      obtain ⟨g', h, hg, hp, hc, hi, hs⟩ := ih hrest g
      refine ⟨g', by simp only [miniwindowMouseDown_loop, if_pos hb]; exact h, ?_, hp, hc, hi, hs⟩
      simpa [reachesThreshold] using hg

theorem wIconSelect_frame (E : Env) (s : St) :
    (wIconSelect E s).icon.core = s.icon.core ∧
    (wIconSelect E s).log.count Call.XUngrabPointer = s.log.count Call.XUngrabPointer := by
  rcases s with ⟨scr, ⟨core, owner, iw, name, file, img, px, mp, tt, st, sel, hl, sh, hid, step⟩, log⟩
  cases sel <;> cases hid <;> cases hb : E.wPreferences.dont_blink <;>
    simp [wIconSelect, St.call, hb, List.count_append, List.count_cons]

/-- A press that is neither modal nor a double click enters the loop with the owner's
stored position, no drag started, and a state that has the same core window and as many
pointer releases as before. -/
theorem miniwindowMouseDown_enters_loop (E : Env) (s : St) (wwin : WWindow)
    (event : XButtonEvent) (hown : s.icon.owner = some wwin)
    (hmodal : E.WCHECK_STATE_MODAL = false) (hdbl : E.IsDoubleClick event = false) :
    ∃ s0 : St, s0.icon.core = s.icon.core ∧
      s0.log.count Call.XUngrabPointer = s.log.count Call.XUngrabPointer ∧
      ∀ es, miniwindowMouseDown E s event es =
        miniwindowMouseDown_loop E wwin event.x event.y event.button
          { x := wwin.icon_x, y := wwin.icon_y, grabbed := false, hasMoved := false, s := s0 }
          es := by
  have hsel := wIconSelect_frame E
  have hpre : ∃ pre : St, pre.icon.core = s.icon.core ∧
      pre.log.count Call.XUngrabPointer = s.log.count Call.XUngrabPointer ∧
      pre = (if event.button = Button1 then
          (if event.state &&& ShiftMask ≠ 0 then
            (wIconSelect E (if event.state &&& E.wPreferences.cmd_modifier_mask ≠ 0
              then s.call Call.wLowerFrame else s.call Call.wRaiseFrame)).call
                (Call.wSelectWindow (!wwin.flags_selected))
          else (if event.state &&& E.wPreferences.cmd_modifier_mask ≠ 0
              then s.call Call.wLowerFrame else s.call Call.wRaiseFrame))
        else s) := by
    refine ⟨_, ?_, ?_, rfl⟩
    · by_cases hb : event.button = Button1 <;>
        by_cases hm : event.state &&& E.wPreferences.cmd_modifier_mask ≠ 0 <;>
        by_cases hs : event.state &&& ShiftMask ≠ 0 <;>
        simp [hb, hm, hs, (hsel _).1]
    · by_cases hb : event.button = Button1 <;>
        by_cases hm : event.state &&& E.wPreferences.cmd_modifier_mask ≠ 0 <;>
        by_cases hs : event.state &&& ShiftMask ≠ 0 <;>
        simp [hb, hm, hs, (hsel _).2, List.count_append, List.count_cons]
  obtain ⟨pre, hc, hu, he⟩ := hpre
  refine ⟨pre.call (Call.XGrabPointer pre.icon.core.window), hc, ?_, fun es => ?_⟩
  · simp [hu, List.count_append, List.count_cons]
  · simp only [miniwindowMouseDown, hown, hmodal, hdbl, Bool.false_eq_true, if_false, he]

/-- C8, as the code has it.  After a press at window offset `(event.x, event.y)` that
is neither modal nor a double click, and any events `es` without a release of the
pressed button, the loop waits with the drag started exactly if some motion event of
`es` was displaced from the press point by at least `MOVE_THRESHOLD` in some axis;
before that the position is still the owner's stored one.  A further motion event
whose displacement is below the threshold in both axes, before the drag has started,
changes neither the position nor the log (no window move); one whose displacement is
at least the threshold in some axis starts the drag (the pointer grab is changed) and
moves the icon window to `(x_root - event.x, y_root - event.y)`; and once the drag
has started every motion event moves the window there. -/
theorem miniwindowMouseDown_drag (E : Env) (s : St) (wwin : WWindow) (event : XButtonEvent)
    (es : List XEvent) (mx my x_root y_root : Int)
    (hown : s.icon.owner = some wwin) (hmodal : E.WCHECK_STATE_MODAL = false)
    (hdbl : E.IsDoubleClick event = false)
    (hes : XEvent.ButtonRelease event.button ∉ es) :
    ∃ g g' : Gesture,
      miniwindowMouseDown E s event es = Outcome.blocked g ∧
      miniwindowMouseDown E s event (es ++ [XEvent.MotionNotify mx my x_root y_root]) =
        Outcome.blocked g' ∧
      g.grabbed = es.any (reachesThreshold E event.x event.y) ∧
      (g.grabbed = false → g.x = wwin.icon_x ∧ g.y = wwin.icon_y) ∧
      (g.grabbed = false →
        ((event.x - mx).natAbs : Int) < E.MOVE_THRESHOLD ∧
          ((event.y - my).natAbs : Int) < E.MOVE_THRESHOLD →
        g'.grabbed = false ∧ g'.x = g.x ∧ g'.y = g.y ∧ g'.s = g.s) ∧
      (g.grabbed = false →
        ((event.x - mx).natAbs : Int) ≥ E.MOVE_THRESHOLD ∨
          ((event.y - my).natAbs : Int) ≥ E.MOVE_THRESHOLD →
        g'.grabbed = true ∧ g'.x = x_root - event.x ∧ g'.y = y_root - event.y ∧
        g'.s.log = g.s.log ++ [Call.XChangeActivePointerGrab,
          Call.XMoveWindow s.icon.core.window (x_root - event.x) (y_root - event.y)]) ∧
      (g.grabbed = true →
        g'.grabbed = true ∧ g'.x = x_root - event.x ∧ g'.y = y_root - event.y ∧
        g'.s.log = g.s.log ++
          [Call.XMoveWindow s.icon.core.window (x_root - event.x) (y_root - event.y)]) := by
  obtain ⟨s0, hcore, _, hloop⟩ := miniwindowMouseDown_enters_loop E s wwin event hown hmodal hdbl
  obtain ⟨g, hg, hgr, hpos, _, hicon, _⟩ := miniwindowMouseDown_loop_waits E wwin event.x event.y
    event.button es hes
    { x := wwin.icon_x, y := wwin.icon_y, grabbed := false, hasMoved := false, s := s0 }
  have hwin : g.s.icon.core.window = s.icon.core.window := by rw [hicon]; exact congrArg _ hcore
  have happ := miniwindowMouseDown_loop_append E wwin event.x event.y event.button es
    [XEvent.MotionNotify mx my x_root y_root] _ g hg
  rw [← hloop] at hg happ
  rcases g with ⟨gx, gy, gg, gh, gs⟩
  simp only [Bool.false_or] at hgr
  simp only at hwin hpos
  cases gg with
  | false =>
    by_cases ht : ((event.x - mx).natAbs : Int) ≥ E.MOVE_THRESHOLD ∨
        ((event.y - my).natAbs : Int) ≥ E.MOVE_THRESHOLD
    · refine ⟨_, ⟨x_root - event.x, y_root - event.y, true, true,
          (gs.call Call.XChangeActivePointerGrab).call
            (Call.XMoveWindow gs.icon.core.window (x_root - event.x) (y_root - event.y))⟩,
        hg, happ.trans ?_, hgr, hpos, ?_, ?_, ?_⟩
      · simp only [miniwindowMouseDown_loop, ht, if_true]
        rfl
      · intro _ hlt
        omega
      · intro _ _
        simp [hwin]
      · intro h
        exact Bool.noConfusion h
    · refine ⟨_, ⟨gx, gy, false, true, gs⟩,
        hg, happ.trans ?_, hgr, hpos, ?_, ?_, ?_⟩
      · simp only [miniwindowMouseDown_loop, ht, if_true, if_false]
      · intro _ _
        exact ⟨rfl, rfl, rfl, rfl⟩
      · intro _ h
        exact absurd h ht
      · intro h
        exact Bool.noConfusion h
  | true =>
    refine ⟨_, ⟨x_root - event.x, y_root - event.y, true, true,
        gs.call (Call.XMoveWindow gs.icon.core.window (x_root - event.x) (y_root - event.y))⟩,
      hg, happ.trans ?_, hgr, hpos, ?_, ?_, ?_⟩
    · simp only [miniwindowMouseDown_loop, Bool.true_eq_false, if_false]
    · intro h
      exact Bool.noConfusion h
    · intro h
      exact Bool.noConfusion h
    · intro _
      simp [hwin]

/-- C8 as stated fails at the threshold itself.  With `MOVE_THRESHOLD = 4` and a press
at window offset `(10, 10)` on an icon stored at `(120, 300)`, a first motion event to
offset `(14, 10)` is displaced by exactly 4 in `x` and 0 in `y`, so it does not exceed
the threshold in either axis; yet the loop starts the drag and moves the icon window
to `(114 - 10, 110 - 10)`. -/
theorem motion_at_threshold_starts_drag :
    exampleEnv.MOVE_THRESHOLD = 4 ∧
    ¬ (((examplePress.x - 14).natAbs : Int) > exampleEnv.MOVE_THRESHOLD) ∧
    ¬ (((examplePress.y - 10).natAbs : Int) > exampleEnv.MOVE_THRESHOLD) ∧
    (miniwindowMouseDown exampleEnv hintedState examplePress []).position =
      some (120, 300, false) ∧
    (miniwindowMouseDown exampleEnv hintedState examplePress
      [XEvent.MotionNotify 14 10 114 110]).position = some (104, 100, true) ∧
    Call.XMoveWindow 50 104 100 ∈
      (miniwindowMouseDown exampleEnv hintedState examplePress
        [XEvent.MotionNotify 14 10 114 110]).log := by
  decide

/-- C8 in the example environment (threshold 4), from the press alone: the loop
waits undragged at the stored position; and the two motions of the specification: 2
pixels leave the position, 6 pixels start the drag. -/
theorem miniwindowMouseDown_drag_witness :
    hintedState.icon.owner = some hintedWindow ∧ exampleEnv.WCHECK_STATE_MODAL = false ∧
    exampleEnv.IsDoubleClick examplePress = false ∧
    XEvent.ButtonRelease examplePress.button ∉ ([] : List XEvent) ∧
    (∃ g g' : Gesture,
      miniwindowMouseDown exampleEnv hintedState examplePress [] = Outcome.blocked g ∧
      miniwindowMouseDown exampleEnv hintedState examplePress
        ([] ++ [XEvent.MotionNotify 16 10 116 110]) = Outcome.blocked g' ∧
      g.grabbed = false ∧ g'.grabbed = true ∧ g'.x = 116 - 10 ∧ g'.y = 110 - 10) ∧
    (miniwindowMouseDown exampleEnv hintedState examplePress
      [XEvent.MotionNotify 12 10 112 110]).position = some (120, 300, false) ∧
    (miniwindowMouseDown exampleEnv hintedState examplePress
      [XEvent.MotionNotify 16 10 116 110]).position = some (106, 100, true) :=
  ⟨rfl, rfl, rfl, by simp,
    (match miniwindowMouseDown_drag exampleEnv hintedState hintedWindow examplePress []
        16 10 116 110 rfl rfl rfl (by simp) with
      | ⟨g, g', h1, h2, h3, _, _, h6, _⟩ =>
        ⟨g, g', h1, h2, h3, (h6 h3 (by decide)).1, (h6 h3 (by decide)).2.1,
          (h6 h3 (by decide)).2.2.1⟩),
    by decide, by decide⟩

/-- C9, as the code has it.  After a press that is neither modal nor a double click:
while no release of the pressed button has arrived the loop waits and has not
released the pointer; the first release of the pressed button makes
`miniwindowMouseDown` return with every later event undelivered and with
`XUngrabPointer` called exactly once.  Releases of other buttons are among the events
the loop passes over. -/
theorem miniwindowMouseDown_release (E : Env) (s : St) (wwin : WWindow) (event : XButtonEvent)
    (es es' : List XEvent)
    (hown : s.icon.owner = some wwin) (hmodal : E.WCHECK_STATE_MODAL = false)
    (hdbl : E.IsDoubleClick event = false)
    (hes : XEvent.ButtonRelease event.button ∉ es) :
    (∃ g, miniwindowMouseDown E s event es = Outcome.blocked g ∧
      g.s.log.count Call.XUngrabPointer = s.log.count Call.XUngrabPointer) ∧
    (∃ g, miniwindowMouseDown E s event (es ++ XEvent.ButtonRelease event.button :: es') =
        Outcome.returned g es' ∧
      g.s.log.count Call.XUngrabPointer = s.log.count Call.XUngrabPointer + 1) := by
  obtain ⟨s0, _, hcount, hloop⟩ := miniwindowMouseDown_enters_loop E s wwin event hown hmodal hdbl
  obtain ⟨g, hg, _, _, hc, _, _⟩ := miniwindowMouseDown_loop_waits E wwin event.x event.y
    event.button es hes
    { x := wwin.icon_x, y := wwin.icon_y, grabbed := false, hasMoved := false, s := s0 }
  have happ := miniwindowMouseDown_loop_append E wwin event.x event.y event.button es
    (XEvent.ButtonRelease event.button :: es') _ g hg
  rw [← hloop] at hg happ
  simp only at hc
  refine ⟨⟨g, hg, hc.trans hcount⟩, ?_⟩
  rw [happ]
  simp only [miniwindowMouseDown_loop, ne_eq, not_true_eq_false, if_false]
  refine ⟨_, rfl, ?_⟩
  by_cases ha : E.wPreferences.auto_arrange_icons = true <;>
    by_cases hsc : E.wPreferences.single_click = true ∧ g.hasMoved = false <;>
    simp [ha, hsc, miniwindowDblClick, List.count_append, List.count_cons, hc, hcount]

/-- C9 as stated fails for a release of another button.  After a press of button 1,
the first button-release event is that of button 3: the loop does not end there (on
that event alone it is still waiting, the pointer still grabbed), and it goes on to
take the motion event that follows, which drags the icon to `(150 - 10, 110 - 10)`,
before the release of button 1 ends it with nothing left undelivered. -/
theorem release_of_other_button_continues :
    (miniwindowMouseDown exampleEnv hintedState examplePress
      [XEvent.ButtonRelease 3]).pending = none ∧
    (miniwindowMouseDown exampleEnv hintedState examplePress
      [XEvent.ButtonRelease 3]).log.count Call.XUngrabPointer = 0 ∧
    (miniwindowMouseDown exampleEnv hintedState examplePress
      [XEvent.ButtonRelease 3, XEvent.MotionNotify 30 10 150 110,
        XEvent.ButtonRelease 1]).pending = some [] ∧
    (miniwindowMouseDown exampleEnv hintedState examplePress
      [XEvent.ButtonRelease 3, XEvent.MotionNotify 30 10 150 110,
        XEvent.ButtonRelease 1]).pending ≠
      some [XEvent.MotionNotify 30 10 150 110, XEvent.ButtonRelease 1] ∧
    (miniwindowMouseDown exampleEnv hintedState examplePress
      [XEvent.ButtonRelease 3, XEvent.MotionNotify 30 10 150 110,
        XEvent.ButtonRelease 1]).position = some (140, 100, true) := by
  decide

/-- C9 in the example environment: a press of button 1, a motion, the release of
button 1, and one more event, which stays undelivered. -/
theorem miniwindowMouseDown_release_witness :
    hintedState.icon.owner = some hintedWindow ∧ exampleEnv.WCHECK_STATE_MODAL = false ∧
    exampleEnv.IsDoubleClick examplePress = false ∧
    XEvent.ButtonRelease examplePress.button ∉ [XEvent.MotionNotify 30 10 150 110] ∧
    ∃ g, miniwindowMouseDown exampleEnv hintedState examplePress
        ([XEvent.MotionNotify 30 10 150 110] ++
          XEvent.ButtonRelease examplePress.button :: [XEvent.Expose]) =
        Outcome.returned g [XEvent.Expose] ∧
      g.s.log.count Call.XUngrabPointer = hintedState.log.count Call.XUngrabPointer + 1 :=
  ⟨rfl, rfl, rfl, by decide,
    (miniwindowMouseDown_release exampleEnv hintedState hintedWindow examplePress
      [XEvent.MotionNotify 30 10 150 110] [XEvent.Expose] rfl rfl rfl (by decide)).2⟩

/-! ## `wIconDestroy` -/

theorem unset_icon_image_calls (s : St) :
    (unset_icon_image s).log = s.log ++
      ((match s.icon.file with
        | some f => [Call.wfree f]
        | none => []) ++
      (match s.icon.file_image with
        | some image => [Call.RReleaseImage image]
        | none => [])) := by
  unfold unset_icon_image
  cases hf : s.icon.file <;> cases hi : s.icon.file_image <;> simp [hf, hi]

/-- The calls `wIconDestroy` makes, in order. -/
theorem wIconDestroy_log (s : St) :
    (wIconDestroy s).log = s.log ++
      ((if s.scr.notificationCenter then
          [Call.CFNotificationCenterRemoveObserver Topic.WMDidChangeIconAppearanceSettings,
            Call.CFNotificationCenterRemoveObserver Topic.WMDidChangeIconTileSettings]
        else []) ++
      (match s.icon.handlerID with
        | some handler => [Call.WMDeleteTimerHandler handler]
        | none => []) ++
      (if s.icon.icon_win ≠ None then
          [Call.XUnmapWindow s.icon.icon_win,
            Call.XReparentWindow s.icon.icon_win s.scr.root_win
              (match s.icon.owner with
                | some wwin => wwin.icon_x
                | none => 0)
              (match s.icon.owner with
                | some wwin => wwin.icon_y
                | none => 0)]
        else []) ++
      (match s.icon.icon_name with
        | some name => [Call.XFree name]
        | none => []) ++
      (if s.icon.pixmap ≠ Pixmap.None then [Call.XFreePixmap s.icon.pixmap] else []) ++
      (if s.icon.mini_preview ≠ Pixmap.None then [Call.XFreePixmap s.icon.mini_preview]
        else []) ++
      ((match s.icon.file with
        | some f => [Call.wfree f]
        | none => []) ++
      (match s.icon.file_image with
        | some image => [Call.RReleaseImage image]
        | none => [])) ++
      [Call.wCoreDestroy s.icon.core.window, Call.wfree_icon]) := by
  unfold wIconDestroy
  lift_lets
  intro s1 s2 xy s4 s5 s6 s7 s8
  have h1 : s1.icon = s.icon ∧ s1.scr = s.scr ∧ s1.log = s.log ++
      (if s.scr.notificationCenter then
        [Call.CFNotificationCenterRemoveObserver Topic.WMDidChangeIconAppearanceSettings,
          Call.CFNotificationCenterRemoveObserver Topic.WMDidChangeIconTileSettings]
      else []) := by
    simp only [s1]
    split <;> simp
  have h2 : s2.icon = s.icon ∧ s2.scr = s.scr ∧ s2.log = s1.log ++
      (match s.icon.handlerID with
        | some handler => [Call.WMDeleteTimerHandler handler]
        | none => []) := by
    simp only [s2, h1.1]
    cases s.icon.handlerID <;> simp [h1.1, h1.2.1]
  have hxy : xy = (match s.icon.owner with
      | some wwin => (wwin.icon_x, wwin.icon_y)
      | none => (0, 0)) := by
    simp only [xy, h2.1]
  have h4 : s4.icon = s.icon ∧ s4.scr = s.scr ∧ s4.log = s2.log ++
      (if s.icon.icon_win ≠ None then
        [Call.XUnmapWindow s.icon.icon_win,
          Call.XReparentWindow s.icon.icon_win s.scr.root_win
            (match s.icon.owner with
              | some wwin => wwin.icon_x
              | none => 0)
            (match s.icon.owner with
              | some wwin => wwin.icon_y
              | none => 0)]
      else []) := by
    simp only [s4, h2.1, h2.2.1, hxy]
    split
    · cases s.icon.owner <;> simp [h2.1, h2.2.1]
    · simp [h2.1, h2.2.1]
  have h5 : s5.icon = s.icon ∧ s5.scr = s.scr ∧ s5.log = s4.log ++
      (match s.icon.icon_name with
        | some name => [Call.XFree name]
        | none => []) := by
    simp only [s5, h4.1]
    cases s.icon.icon_name <;> simp [h4.1, h4.2.1]
  have h6 : s6.icon = s.icon ∧ s6.scr = s.scr ∧ s6.log = s5.log ++
      (if s.icon.pixmap ≠ Pixmap.None then [Call.XFreePixmap s.icon.pixmap] else []) := by
    simp only [s6, h5.1]
    split <;> simp [h5.1, h5.2.1]
  have h7 : s7.icon = s.icon ∧ s7.scr = s.scr ∧ s7.log = s6.log ++
      (if s.icon.mini_preview ≠ Pixmap.None then [Call.XFreePixmap s.icon.mini_preview]
        else []) := by
    simp only [s7, h6.1]
    split <;> simp [h6.1, h6.2.1]
  have h8 : s8.icon.core = s.icon.core ∧ s8.log = s7.log ++
      ((match s.icon.file with
        | some f => [Call.wfree f]
        | none => []) ++
      (match s.icon.file_image with
        | some image => [Call.RReleaseImage image]
        | none => [])) := by
    simp only [s8, unset_icon_image_calls, unset_icon_image_icon, h7.1, and_self]
  simp only [St.call_log, St.call_icon, h8.1, h8.2, h7.2.2, h6.2.2, h5.2.2, h4.2.2, h2.2.2,
    h1.2.2, List.append_assoc, List.singleton_append]

/-- C10. The calls `wIconDestroy` makes.  With an icon window it unmaps that window
once and makes one reparent call, of that window to the root window at the owner's
`(icon_x, icon_y)`, or at `(0, 0)` without an owner; without an icon window it makes
no unmap and no reparent call.  Each of the two observers is removed once when the
screen has a notification center (icons subscribe only then) and not at all
otherwise.  The icon's pixmap is freed once when it is set and never otherwise (the
mini preview being another pixmap). -/
theorem wIconDestroy_calls (s : St) :
    ∃ l, (wIconDestroy s).log = s.log ++ l ∧
      l.filter Call.isReparent =
        (if s.icon.icon_win ≠ None then
          [Call.XReparentWindow s.icon.icon_win s.scr.root_win
            (match s.icon.owner with
              | some wwin => wwin.icon_x
              | none => 0)
            (match s.icon.owner with
              | some wwin => wwin.icon_y
              | none => 0)]
        else []) ∧
      (∀ w, l.count (Call.XUnmapWindow w) =
        if s.icon.icon_win ≠ None ∧ w = s.icon.icon_win then 1 else 0) ∧
      (∀ name, l.count (Call.CFNotificationCenterRemoveObserver name) =
        if s.scr.notificationCenter then 1 else 0) ∧
      (s.icon.mini_preview ≠ s.icon.pixmap →
        l.count (Call.XFreePixmap s.icon.pixmap) =
          if s.icon.pixmap ≠ Pixmap.None then 1 else 0) := by
  refine ⟨_, wIconDestroy_log s, ?_, ?_, ?_, ?_⟩
  · cases s.icon.handlerID <;> cases s.icon.icon_name <;> cases s.icon.file <;>
      cases s.icon.file_image <;>
      simp only [List.filter_append, apply_ite (List.filter Call.isReparent), List.filter_cons,
        List.filter_nil, Call.isReparent] <;>
      simp
  · intro w
    cases s.icon.handlerID <;> cases s.icon.icon_name <;> cases s.icon.file <;>
      cases s.icon.file_image <;>
      simp only [List.count_append, apply_ite (List.count _), List.count_cons, List.count_nil] <;>
      simp <;> split <;> simp_all [eq_comm]
  · intro name
    cases s.icon.handlerID <;> cases s.icon.icon_name <;> cases s.icon.file <;>
      cases s.icon.file_image <;>
      simp only [List.count_append, apply_ite (List.count _), List.count_cons, List.count_nil] <;>
      simp <;> cases name <;> simp
  · intro hne
    cases s.icon.handlerID <;> cases s.icon.icon_name <;> cases s.icon.file <;>
      cases s.icon.file_image <;>
      simp only [List.count_append, apply_ite (List.count _), List.count_cons, List.count_nil] <;>
      simp [hne]

/-- C10 on an icon that embeds the icon window 900 and whose owner is stored at
`(120, 300)`: one reparent call, to the root window at that position, and the pixmap
freed once. -/
theorem wIconDestroy_calls_witness :
    dockappState.icon.mini_preview ≠ dockappState.icon.pixmap ∧
    ∃ l, (wIconDestroy dockappState).log = dockappState.log ++ l ∧
      l.filter Call.isReparent = [Call.XReparentWindow 900 1 120 300] ∧
      l.count (Call.XFreePixmap dockappState.icon.pixmap) = 1 :=
  ⟨by decide,
    (match wIconDestroy_calls dockappState with
      | ⟨l, h1, h2, _, _, h5⟩ => ⟨l, h1, h2, h5 (by decide)⟩)⟩

/-! ## The scaled size -/

/-- C11, as the code has it.  For an image that exceeds the bound, under the
conditions of C1 and with `m = max_size - 3`: the result is `m` wide and
`height * m / width` high when the image is wider than high, and `width * m / height`
wide and `m` high otherwise, the quotient being cut off to the integer below (the
largest `q` with `q * longer <= shorter * m`), not rounded to the nearest. -/
theorem wIconValidateIconSize_scaled_size (E : Env) (img : RImage) (max_size : Int)
    (hw : 1 ≤ img.width) (hh : 1 ≤ img.height)
    (hmax : 3 ≤ max_size) (hmax2 : max_size + 3 < 2147483648)
    (hfw : img.width * (max_size - 3) < 2147483648)
    (hfh : img.height * (max_size - 3) < 2147483648)
    (hscale : ∀ w h, ∃ r, E.RScaleImage img w h = some r ∧ r.width = w ∧ r.height = h)
    (hex : img.width > max_size + 3 ∨ img.height > max_size + 3) :
    ∃ r, (wIconValidateIconSize E (some img) max_size).1 = some r ∧
      (img.width > img.height →
        r.width = max_size - 3 ∧ r.height = img.height * (max_size - 3) / img.width ∧
        r.height * img.width ≤ img.height * (max_size - 3) ∧
        img.height * (max_size - 3) < (r.height + 1) * img.width) ∧
      (img.width ≤ img.height →
        r.width = img.width * (max_size - 3) / img.height ∧ r.height = max_size - 3 ∧
        r.width * img.height ≤ img.width * (max_size - 3) ∧
        img.width * (max_size - 3) < (r.width + 1) * img.height) := by
  have hm : toInt (max_size - ICON_BORDER) = max_size - 3 :=
    toInt_eq _ (by unfold ICON_BORDER; omega) (by unfold ICON_BORDER; omega)
  have hM : toInt (max_size + ICON_BORDER) = max_size + 3 :=
    toInt_eq _ (by unfold ICON_BORDER; omega) (by unfold ICON_BORDER; omega)
  have hmu : toUnsigned (max_size - 3) = max_size - 3 := toUnsigned_eq _ (by omega) (by omega)
  simp only [wIconValidateIconSize, hm, hM, if_pos hex, hmu]
  by_cases hwh : img.width > img.height
  · obtain ⟨hq, _, _⟩ := scaled_side img.height img.width (max_size - 3) hh (by omega)
      (by omega) hfh
    obtain ⟨r, hr, hrw, hrh⟩ := hscale (max_size - 3) (img.height * (max_size - 3) / img.width)
    have hpos : 0 < img.width := by omega
    refine ⟨r, by simp only [if_pos hwh, hq, hr], fun _ => ⟨hrw, hrh, ?_, ?_⟩, fun h => ?_⟩
    · rw [hrh]
      exact Int.ediv_mul_le _ (by omega)
    · rw [hrh]
      exact Int.lt_ediv_add_one_mul_self _ hpos
    · omega
  · obtain ⟨hq, _, _⟩ := scaled_side img.width img.height (max_size - 3) hw (by omega)
      (by omega) hfw
    obtain ⟨r, hr, hrw, hrh⟩ := hscale (img.width * (max_size - 3) / img.height) (max_size - 3)
    have hpos : 0 < img.height := by omega
    refine ⟨r, by simp only [if_neg hwh, hq, hr], fun h => absurd h hwh, fun _ => ⟨hrw, hrh, ?_, ?_⟩⟩
    · rw [hrw]
      exact Int.ediv_mul_le _ (by omega)
    · rw [hrw]
      exact Int.lt_ediv_add_one_mul_self _ hpos

/-- C11 as stated fails where the exact quotient has a fraction of one half or more.
An image of 400 x 150 with `max_size = 64` is scaled to 61 x 22: the exact height
`150 * 61 / 400 = 22.875` is cut off to 22, while the nearest integer is 23 (twice the
distance of `150 * 61` from `23 * 400` is below 400, that from `22 * 400` is above). -/
theorem scaled_side_is_truncated :
    (wIconValidateIconSize exampleEnv (some { id := 5, width := 400, height := 150 }) 64).1 =
      some { id := 1005, width := 61, height := 22 } ∧
    2 * (150 * 61 - 23 * 400 : Int).natAbs < 400 ∧
    400 < 2 * (150 * 61 - 22 * 400 : Int).natAbs := by
  decide

/-- C11 on the two images of the specification with `max_size = 64`: 400 x 100 is
scaled to 61 x 15, and 50 x 40 comes back as it is. -/
theorem wIconValidateIconSize_scaled_size_witness :
    ((400 : Int) > 64 + 3 ∨ (100 : Int) > 64 + 3) ∧
    (∃ r, (wIconValidateIconSize exampleEnv
        (some { id := 5, width := 400, height := 100 }) 64).1 = some r ∧
      r.width = 64 - 3 ∧ r.height = 100 * (64 - 3) / 400) ∧
    (wIconValidateIconSize exampleEnv (some { id := 5, width := 400, height := 100 }) 64).1 =
      some { id := 1005, width := 61, height := 15 } ∧
    wIconValidateIconSize exampleEnv (some { id := 6, width := 50, height := 40 }) 64 =
      (some { id := 6, width := 50, height := 40 }, []) :=
  ⟨by decide,
    (match wIconValidateIconSize_scaled_size exampleEnv { id := 5, width := 400, height := 100 }
        64 (by decide) (by decide) (by decide) (by decide) (by decide) (by decide)
        (fun w h => ⟨_, rfl, rfl, rfl⟩) (by decide) with
      | ⟨r, h1, h2, _⟩ => ⟨r, h1, (h2 (by decide)).1, (h2 (by decide)).2.1⟩),
    by decide, by decide⟩

/-! ## The blit of `icon_update_pixmap` -/

/-- The arguments of `RCombineArea` in exact arithmetic, for an image with sides at
least 1, an icon size of at least 1 and a title height between 0 and the icon size,
all within the `int` range: no conversion between `int` and `unsigned` changes a
value. -/
theorem blit_exact (E : Env) (icon : WIcon) (image : RImage)
    (hw : 1 ≤ image.width) (hw2 : image.width < 2147483648)
    (hh : 1 ≤ image.height)
    (hS : 1 ≤ E.wPreferences.icon_size) (hS2 : E.wPreferences.icon_size < 2147483648)
    (ht : 0 ≤ (if icon.show_title then toInt E.WMFontHeight else 0))
    (htS : (if icon.show_title then toInt E.WMFontHeight else 0) ≤ E.wPreferences.icon_size)
    (hsum : image.height + (if icon.show_title then toInt E.WMFontHeight else 0) < 2147483648) :
    blit E icon image = DrawOp.RCombineArea image
      ((image.width - min image.width E.wPreferences.icon_size) / 2)
      ((image.height - min image.height (E.wPreferences.icon_size -
        (if icon.show_title then toInt E.WMFontHeight else 0))) / 2)
      (min image.width E.wPreferences.icon_size)
      (min image.height (E.wPreferences.icon_size -
        (if icon.show_title then toInt E.WMFontHeight else 0)))
      ((E.wPreferences.icon_size - min image.width E.wPreferences.icon_size) / 2)
      ((if icon.show_title then toInt E.WMFontHeight else 0) +
        (E.wPreferences.icon_size - (if icon.show_title then toInt E.WMFontHeight else 0) -
          min image.height (E.wPreferences.icon_size -
            (if icon.show_title then toInt E.WMFontHeight else 0))) / 2) := by
  unfold blit
  generalize (if icon.show_title then toInt E.WMFontHeight else 0) = t at ht htS hsum ⊢
  generalize E.wPreferences.icon_size = S at hS hS2 htS ⊢
  generalize image.width = iw at hw hw2 ⊢
  generalize image.height = ih at hh hsum ⊢
  simp only
  have hsumI : toInt (ih + t) = ih + t := toInt_eq _ (by omega) hsum
  have hdiff : toInt (S - t) = S - t := toInt_eq _ (by omega) (by omega)
  rw [hsumI, hdiff]
  by_cases h1 : iw > S <;> by_cases h2 : ih + t > S
  · rw [if_pos h1, if_pos h2, min_eq_right (by omega), min_eq_right (by omega)]
    unfold toInt toUnsigned
    congr 1 <;> omega
  · rw [if_pos h1, if_neg h2, min_eq_right (by omega), min_eq_left (by omega)]
    unfold toInt toUnsigned
    congr 1 <;> omega
  · rw [if_neg h1, if_pos h2, min_eq_left (by omega), min_eq_right (by omega)]
    unfold toInt toUnsigned
    congr 1 <;> omega
  · rw [if_neg h1, if_neg h2, min_eq_left (by omega), min_eq_left (by omega)]
    unfold toInt toUnsigned
    congr 1 <;> omega

/-- C12, as the code has it.  For an image with sides at least 1, an icon size of at
least 1 and a title height `t` between 0 and the icon size (the font height when the
icon shows its title, 0 otherwise): the drawn region is `min(image.width, iconSize)`
wide and `min(image.height, iconSize - t)` high, which is `min(image.height,
iconSize)` when no title space is reserved, and it is placed at
`x = (iconSize - width) / 2`. -/
theorem blit_size (E : Env) (icon : WIcon) (image : RImage)
    (hw : 1 ≤ image.width) (hw2 : image.width < 2147483648)
    (hh : 1 ≤ image.height)
    (hS : 1 ≤ E.wPreferences.icon_size) (hS2 : E.wPreferences.icon_size < 2147483648)
    (ht : 0 ≤ (if icon.show_title then toInt E.WMFontHeight else 0))
    (htS : (if icon.show_title then toInt E.WMFontHeight else 0) ≤ E.wPreferences.icon_size)
    (hsum : image.height + (if icon.show_title then toInt E.WMFontHeight else 0) < 2147483648) :
    ∃ sx sy w h x y, blit E icon image = DrawOp.RCombineArea image sx sy w h x y ∧
      w = min image.width E.wPreferences.icon_size ∧
      h = min image.height (E.wPreferences.icon_size -
        (if icon.show_title then toInt E.WMFontHeight else 0)) ∧
      (icon.show_title = false → h = min image.height E.wPreferences.icon_size) ∧
      x = (E.wPreferences.icon_size - w) / 2 := by
  refine ⟨_, _, _, _, _, _, blit_exact E icon image hw hw2 hh hS hS2 ht htS hsum, rfl, rfl, ?_, rfl⟩
  intro hno
  simp only [hno, Bool.false_eq_true, if_false, sub_zero]

/-- C12 as stated fails when title space is reserved.  With icon size 64 and a title
font of height 10, a 48 x 60 image on an icon that shows its title is drawn 48 wide
and 54 high (`64 - 10`), not `min(60, 64) = 60` high. -/
theorem blit_height_under_title :
    titledIcon.show_title = true ∧ exampleEnv.wPreferences.icon_size = 64 ∧
    exampleEnv.WMFontHeight = 10 ∧
    blit exampleEnv titledIcon tallImage = DrawOp.RCombineArea tallImage 0 3 48 54 8 10 ∧
    min tallImage.height exampleEnv.wPreferences.icon_size = 60 := by
  decide

/-- C12 on a 48 x 60 image and the untitled fresh icon, icon size 64: the region is
48 x 60 at `x = 8`. -/
theorem blit_size_witness :
    (1 : Int) ≤ tallImage.width ∧ (1 : Int) ≤ tallImage.height ∧
    freshIcon.show_title = false ∧
    (∃ sx sy w h x y, blit exampleEnv freshIcon tallImage =
        DrawOp.RCombineArea tallImage sx sy w h x y ∧
      w = min tallImage.width 64 ∧ h = min tallImage.height 64 ∧ x = (64 - w) / 2) ∧
    blit exampleEnv freshIcon tallImage = DrawOp.RCombineArea tallImage 0 0 48 60 8 2 :=
  ⟨by decide, by decide, rfl,
    (match blit_size exampleEnv freshIcon tallImage (by decide) (by decide) (by decide)
        (by decide) (by decide) (by decide) (by decide) (by decide) with
      | ⟨sx, sy, w, h, x, y, h1, h2, _, h4, h5⟩ =>
        ⟨sx, sy, w, h, x, y, h1, h2, h4 rfl, h5⟩),
    by decide⟩

/-- C15. For an image with sides at least 1, an icon size `S` of at least 1 and a
title height `t` with `0 <= t <= S` (values within the `int` range, the sum
`image.height + t` included): the region `RCombineArea` copies lies inside the tile
below the title strip and inside the image, and the four differences computed in
`unsigned` are not negative, so that `x`, `sx`, `y`, `sy` are the exact halves. -/
theorem blit_in_bounds (E : Env) (icon : WIcon) (image : RImage)
    (hw : 1 ≤ image.width) (hw2 : image.width < 2147483648)
    (hh : 1 ≤ image.height)
    (hS : 1 ≤ E.wPreferences.icon_size) (hS2 : E.wPreferences.icon_size < 2147483648)
    (ht : 0 ≤ (if icon.show_title then toInt E.WMFontHeight else 0))
    (htS : (if icon.show_title then toInt E.WMFontHeight else 0) ≤ E.wPreferences.icon_size)
    (hsum : image.height + (if icon.show_title then toInt E.WMFontHeight else 0) < 2147483648) :
    ∃ sx sy w h x y, blit E icon image = DrawOp.RCombineArea image sx sy w h x y ∧
      (0 ≤ x ∧ x + w ≤ E.wPreferences.icon_size) ∧
      ((if icon.show_title then toInt E.WMFontHeight else 0) ≤ y ∧
        y + h ≤ E.wPreferences.icon_size) ∧
      (0 ≤ sx ∧ sx + w ≤ image.width) ∧
      (0 ≤ sy ∧ sy + h ≤ image.height) ∧
      (1 ≤ w ∧ 0 ≤ h) ∧
      (0 ≤ E.wPreferences.icon_size - w ∧ x = (E.wPreferences.icon_size - w) / 2) ∧
      (0 ≤ image.width - w ∧ sx = (image.width - w) / 2) ∧
      (0 ≤ E.wPreferences.icon_size - (if icon.show_title then toInt E.WMFontHeight else 0) - h ∧
        y = (if icon.show_title then toInt E.WMFontHeight else 0) +
          (E.wPreferences.icon_size - (if icon.show_title then toInt E.WMFontHeight else 0) - h) / 2) ∧
      (0 ≤ image.height - h ∧ sy = (image.height - h) / 2) := by
  refine ⟨_, _, _, _, _, _, blit_exact E icon image hw hw2 hh hS hS2 ht htS hsum, ?_⟩
  generalize (if icon.show_title then toInt E.WMFontHeight else 0) = t at ht htS hsum ⊢
  generalize E.wPreferences.icon_size = S at hS hS2 htS ⊢
  generalize image.width = iw at hw hw2 ⊢
  generalize image.height = ih at hh hsum ⊢
  rcases le_total iw S with h1 | h1 <;> rcases le_total ih (S - t) with h2 | h2
  · rw [min_eq_left h1, min_eq_left h2]
    omega
  · rw [min_eq_left h1, min_eq_right h2]
    omega
  · rw [min_eq_right h1, min_eq_left h2]
    omega
  · rw [min_eq_right h1, min_eq_right h2]
    omega

/-- C15 on a 48 x 60 image under a title of height 10 in a tile of 64: the region
copied is 48 x 54 from `(0, 3)` of the image to `(8, 10)` of the tile. -/
theorem blit_in_bounds_witness :
    (1 : Int) ≤ tallImage.width ∧ (1 : Int) ≤ tallImage.height ∧
    (0 : Int) ≤ (if titledIcon.show_title then toInt exampleEnv.WMFontHeight else 0) ∧
    (if titledIcon.show_title then toInt exampleEnv.WMFontHeight else 0) ≤
      exampleEnv.wPreferences.icon_size ∧
    (∃ sx sy w h x y, blit exampleEnv titledIcon tallImage =
        DrawOp.RCombineArea tallImage sx sy w h x y ∧
      (0 ≤ x ∧ x + w ≤ 64) ∧ (10 ≤ y ∧ y + h ≤ 64) ∧
      (0 ≤ sx ∧ sx + w ≤ 48) ∧ (0 ≤ sy ∧ sy + h ≤ 60)) :=
  ⟨by decide, by decide, by decide, by decide,
    (match blit_in_bounds exampleEnv titledIcon tallImage (by decide) (by decide) (by decide)
        (by decide) (by decide) (by decide) (by decide) (by decide) with
      | ⟨sx, sy, w, h, x, y, h1, h2, h3, h4, h5, _⟩ =>
        ⟨sx, sy, w, h, x, y, h1, h2, h3, h4, h5⟩)⟩

/-! ## The title -/

/-- C14. `update_icon_title` draws nothing when the icon does not show its title or
has no title text.  Otherwise, with `sw` the width of the shrunk title and `W` the
width of the icon window (both non-negative `int` values, `(W - 4) - sw` not below
the `int` range), it draws the text once, at
`x = max(2, (W - 4) - sw)` when `sw > W - 4` and at `x = max(2, (W - sw) / 2)`
otherwise, so at `x >= 2`. -/
theorem update_icon_title_origin (E : Env) (s : St) :
    (s.icon.show_title = false ∨ s.icon.icon_name = none → update_icon_title E s = s) ∧
    (∀ name, s.icon.show_title = true → s.icon.icon_name = some name →
      0 ≤ E.WMWidthOfString (E.ShrinkString name (toInt (E.wPreferences.icon_size - 4))) →
      E.WMWidthOfString (E.ShrinkString name (toInt (E.wPreferences.icon_size - 4)))
        < 2147483648 →
      0 ≤ s.icon.core.width → s.icon.core.width < 2147483648 →
      -2147483648 ≤ s.icon.core.width - 4 -
        E.WMWidthOfString (E.ShrinkString name (toInt (E.wPreferences.icon_size - 4))) →
      ∃ x, (update_icon_title E s).log = s.log ++
          [Call.WMDrawString s.icon.core.window x 1
              (E.ShrinkString name (toInt (E.wPreferences.icon_size - 4))),
            Call.wfree (E.ShrinkString name (toInt (E.wPreferences.icon_size - 4)))] ∧
        x = (if E.WMWidthOfString (E.ShrinkString name (toInt (E.wPreferences.icon_size - 4)))
              > s.icon.core.width - 4
          then max 2 ((s.icon.core.width - 4) -
            E.WMWidthOfString (E.ShrinkString name (toInt (E.wPreferences.icon_size - 4))))
          else max 2 ((s.icon.core.width -
            E.WMWidthOfString (E.ShrinkString name (toInt (E.wPreferences.icon_size - 4)))) / 2)) ∧
        2 ≤ x) := by
  constructor
  · intro h
    unfold update_icon_title
    rcases h with h | h
    · simp only [h]
    · cases hst : s.icon.show_title <;> simp only [h]
  · intro name hst hname hsw0 hsw1 hW0 hW1 hfit
    generalize hT : E.ShrinkString name (toInt (E.wPreferences.icon_size - 4)) = text at hsw0 hsw1 hfit ⊢
    generalize hS : E.WMWidthOfString text = sw at hsw0 hsw1 hfit ⊢
    have hW4 : toInt (s.icon.core.width - 4) = s.icon.core.width - 4 :=
      toInt_eq _ (by omega) (by omega)
    have hlog : (update_icon_title E s).log = s.log ++
        [Call.WMDrawString s.icon.core.window
            (if (if sw > s.icon.core.width - 4
                then toInt (s.icon.core.width - 4 - sw)
                else toInt (Int.tdiv (toInt (s.icon.core.width - sw)) 2)) < 2 then 2
              else (if sw > s.icon.core.width - 4
                then toInt (s.icon.core.width - 4 - sw)
                else toInt (Int.tdiv (toInt (s.icon.core.width - sw)) 2))) 1 text,
          Call.wfree text] := by
      unfold update_icon_title
      simp only [hst, hname, hT, hS, hW4, St.call_log, St.call_icon, List.append_assoc,
        List.singleton_append]
    refine ⟨_, hlog, ?_, ?_⟩
    · by_cases hgt : sw > s.icon.core.width - 4
      · simp only [if_pos hgt]
        rw [toInt_eq _ (by omega) (by omega)]
        split <;> omega
      · simp only [if_neg hgt]
        rw [toInt_eq (s.icon.core.width - sw) (by omega) (by omega),
          Int.tdiv_eq_ediv (by omega) (by omega), toInt_eq _ (by omega) (by omega)]
        split <;> omega
    · split <;> omega

/-- C14 on the titled icon, window width 64, title `xterm` of width 30: the text is
drawn centered at `x = (64 - 30) / 2 = 17`. -/
theorem update_icon_title_origin_witness :
    titledState.icon.show_title = true ∧
    titledState.icon.icon_name = some "xterm".toList ∧
    (∃ x, (update_icon_title exampleEnv titledState).log = titledState.log ++
        [Call.WMDrawString 50 x 1 "xterm".toList, Call.wfree "xterm".toList] ∧ 2 ≤ x) ∧
    (update_icon_title exampleEnv titledState).log =
      [Call.WMDrawString 50 17 1 "xterm".toList, Call.wfree "xterm".toList] :=
  ⟨rfl, rfl,
    (match (update_icon_title_origin exampleEnv titledState).2 "xterm".toList rfl rfl
        (by decide) (by decide) (by decide) (by decide) (by decide) with
      | ⟨x, h1, _, h3⟩ => ⟨x, h1, h3⟩),
    by decide⟩

/-! ## Activation by a single click -/

/-- While no release of the pressed button arrives, the loop keeps waiting; it has
noted a motion exactly if it had before or some motion event arrived, and it has not
called the double-click action. -/
theorem miniwindowMouseDown_loop_moved (E : Env) (wwin : WWindow) (dx dy : Int)
    (clickButton : Nat) (es : List XEvent) (hes : XEvent.ButtonRelease clickButton ∉ es) :
    ∀ g : Gesture, ∃ g', miniwindowMouseDown_loop E wwin dx dy clickButton g es =
        Outcome.blocked g' ∧
      g'.hasMoved = (g.hasMoved || es.any XEvent.isMotion) ∧
      g'.s.log.count Call.wDeiconifyWindow = g.s.log.count Call.wDeiconifyWindow := by
  induction es with
  | nil =>
    intro g
    exact ⟨g, rfl, by simp, rfl⟩
  | cons ev rest ih =>
    intro g
    have hrest : XEvent.ButtonRelease clickButton ∉ rest := fun h => hes (List.mem_cons_of_mem _ h)
    cases ev with
    | Expose =>
      obtain ⟨g', h, hm, hc⟩ := ih hrest
        { g with s := g.s.call (Call.WMHandleEvent XEvent.Expose) }
      refine ⟨g', by simp only [miniwindowMouseDown_loop]; exact h, ?_, ?_⟩
      · simpa [XEvent.isMotion] using hm
      · simpa [List.count_append, List.count_cons] using hc
    | MotionNotify mx my xr yr =>
      rcases g with ⟨gx, gy, gg, gh, gs⟩
      cases gg with
      | false =>
        by_cases ht : ((dx - mx).natAbs : Int) ≥ E.MOVE_THRESHOLD ∨
            ((dy - my).natAbs : Int) ≥ E.MOVE_THRESHOLD
        · obtain ⟨g', h, hm, hc⟩ := ih hrest
            ⟨xr - dx, yr - dy, true, true,
              (gs.call Call.XChangeActivePointerGrab).call
                (Call.XMoveWindow gs.icon.core.window (xr - dx) (yr - dy))⟩
          simp only [Bool.true_or] at hm
          refine ⟨g', ?_, ?_, ?_⟩
          · simp only [miniwindowMouseDown_loop, ht, if_true]
            exact h
          · simp [hm, XEvent.isMotion]
          · simpa [List.count_append, List.count_cons] using hc
        · obtain ⟨g', h, hm, hc⟩ := ih hrest ⟨gx, gy, false, true, gs⟩
          simp only [Bool.true_or] at hm
          refine ⟨g', ?_, ?_, hc⟩
          · simp only [miniwindowMouseDown_loop, ht, if_true, if_false]
            exact h
          · simp [hm, XEvent.isMotion]
      | true =>
        obtain ⟨g', h, hm, hc⟩ := ih hrest
          ⟨xr - dx, yr - dy, true, true,
            gs.call (Call.XMoveWindow gs.icon.core.window (xr - dx) (yr - dy))⟩
        simp only [Bool.true_or] at hm
        refine ⟨g', ?_, ?_, ?_⟩
        · simp only [miniwindowMouseDown_loop, Bool.true_eq_false, if_false]
          exact h
        · simp [hm, XEvent.isMotion]
        · simpa [List.count_append, List.count_cons] using hc
    | ButtonPress b =>
      obtain ⟨g', h, hm, hc⟩ := ih hrest g
      refine ⟨g', by simp only [miniwindowMouseDown_loop]; exact h, ?_, hc⟩
      simpa [XEvent.isMotion] using hm
    | ButtonRelease b =>
      have hb : b ≠ clickButton := by
        intro e
        subst e
        exact hes (List.mem_cons_self _ _)
      obtain ⟨g', h, hm, hc⟩ := ih hrest g
      refine ⟨g', by simp only [miniwindowMouseDown_loop, if_pos hb]; exact h, ?_, hc⟩
      simpa [XEvent.isMotion] using hm

/-- Toggling the selection does not call the double-click action. -/
theorem wIconSelect_no_activation (E : Env) (s : St) :
    (wIconSelect E s).log.count Call.wDeiconifyWindow = s.log.count Call.wDeiconifyWindow := by
  rcases s with ⟨scr, ⟨core, owner, iw, name, file, img, px, mp, tt, st, sel, hl, sh, hid, step⟩, log⟩
  cases sel <;> cases hid <;> cases hb : E.wPreferences.dont_blink <;>
    simp [wIconSelect, St.call, hb, List.count_append, List.count_cons]

/-- A press that is neither modal nor a double click enters the loop without having
called the double-click action. -/
theorem miniwindowMouseDown_enters_loop_quietly (E : Env) (s : St) (wwin : WWindow)
    (event : XButtonEvent) (hown : s.icon.owner = some wwin)
    (hmodal : E.WCHECK_STATE_MODAL = false) (hdbl : E.IsDoubleClick event = false) :
    ∃ s0 : St, s0.log.count Call.wDeiconifyWindow = s.log.count Call.wDeiconifyWindow ∧
      ∀ es, miniwindowMouseDown E s event es =
        miniwindowMouseDown_loop E wwin event.x event.y event.button
          { x := wwin.icon_x, y := wwin.icon_y, grabbed := false, hasMoved := false, s := s0 }
          es := by
  have hsel := wIconSelect_no_activation E
  have hpre : ∃ pre : St,
      pre.log.count Call.wDeiconifyWindow = s.log.count Call.wDeiconifyWindow ∧
      pre = (if event.button = Button1 then
          (if event.state &&& ShiftMask ≠ 0 then
            (wIconSelect E (if event.state &&& E.wPreferences.cmd_modifier_mask ≠ 0
              then s.call Call.wLowerFrame else s.call Call.wRaiseFrame)).call
                (Call.wSelectWindow (!wwin.flags_selected))
          else (if event.state &&& E.wPreferences.cmd_modifier_mask ≠ 0
              then s.call Call.wLowerFrame else s.call Call.wRaiseFrame))
        else s) := by
    refine ⟨_, ?_, rfl⟩
    by_cases hb : event.button = Button1 <;>
      by_cases hm : event.state &&& E.wPreferences.cmd_modifier_mask ≠ 0 <;>
      by_cases hs : event.state &&& ShiftMask ≠ 0 <;>
      simp [hb, hm, hs, hsel, List.count_append, List.count_cons]
  obtain ⟨pre, hu, he⟩ := hpre
  refine ⟨pre.call (Call.XGrabPointer pre.icon.core.window), ?_, fun es => ?_⟩
  · simp [hu, List.count_append, List.count_cons]
  · simp only [miniwindowMouseDown, hown, hmodal, hdbl, Bool.false_eq_true, if_false, he]

/-- The release of the pressed button ends the loop; the double-click action is called
once if `single_click` is set and no motion was noted, and not otherwise. -/
theorem miniwindowMouseDown_loop_release (E : Env) (wwin : WWindow) (dx dy : Int)
    (clickButton : Nat) (g : Gesture) (es' : List XEvent) :
    ∃ g', miniwindowMouseDown_loop E wwin dx dy clickButton g
        (XEvent.ButtonRelease clickButton :: es') = Outcome.returned g' es' ∧
      g'.grabbed = g.grabbed ∧
      g'.s.log.count Call.wDeiconifyWindow = g.s.log.count Call.wDeiconifyWindow +
        (if E.wPreferences.single_click = true ∧ g.hasMoved = false then 1 else 0) := by
  simp only [miniwindowMouseDown_loop, ne_eq, not_true_eq_false, if_false]
  refine ⟨_, rfl, rfl, ?_⟩
  by_cases ha : E.wPreferences.auto_arrange_icons = true <;>
    by_cases hsc : E.wPreferences.single_click = true ∧ g.hasMoved = false <;>
    simp [ha, hsc, miniwindowDblClick, List.count_append, List.count_cons]

/-- C13, as the code has it.  With `single_click` set, after a press that is neither
modal nor a double click and events `es` without a release of the pressed button,
the release of that button makes `miniwindowMouseDown` return; it has called the
double-click action (`wDeiconifyWindow` on the owner) once if `es` held no motion
event at all, and not at all if `es` held a motion event, be it below the drag
threshold or not; in particular not when a drag occurred. -/
theorem miniwindowMouseDown_single_click (E : Env) (s : St) (wwin : WWindow)
    (event : XButtonEvent) (es es' : List XEvent)
    (hown : s.icon.owner = some wwin) (hmodal : E.WCHECK_STATE_MODAL = false)
    (hdbl : E.IsDoubleClick event = false)
    (hsc : E.wPreferences.single_click = true)
    (hes : XEvent.ButtonRelease event.button ∉ es) :
    ∃ g, miniwindowMouseDown E s event (es ++ XEvent.ButtonRelease event.button :: es') =
        Outcome.returned g es' ∧
      (es.any XEvent.isMotion = false →
        g.s.log.count Call.wDeiconifyWindow = s.log.count Call.wDeiconifyWindow + 1) ∧
      (es.any XEvent.isMotion = true →
        g.s.log.count Call.wDeiconifyWindow = s.log.count Call.wDeiconifyWindow) ∧
      (es.any (reachesThreshold E event.x event.y) = true →
        g.grabbed = true ∧
        g.s.log.count Call.wDeiconifyWindow = s.log.count Call.wDeiconifyWindow) := by
  obtain ⟨s0, hcount, hloop⟩ := miniwindowMouseDown_enters_loop_quietly E s wwin event hown
    hmodal hdbl
  obtain ⟨g, hg, hm, hc⟩ := miniwindowMouseDown_loop_moved E wwin event.x event.y
    event.button es hes
    { x := wwin.icon_x, y := wwin.icon_y, grabbed := false, hasMoved := false, s := s0 }
  obtain ⟨g2, hg2, hgr, _⟩ := miniwindowMouseDown_loop_waits E wwin event.x event.y
    event.button es hes
    { x := wwin.icon_x, y := wwin.icon_y, grabbed := false, hasMoved := false, s := s0 }
  have hsame : g2 = g := by
    rw [hg] at hg2
    exact (Outcome.blocked.inj hg2).symm
  subst hsame
  have happ := miniwindowMouseDown_loop_append E wwin event.x event.y event.button es
    (XEvent.ButtonRelease event.button :: es') _ g2 hg
  rw [← hloop] at happ
  simp only [Bool.false_or] at hm hgr hc
  obtain ⟨g3, hrel, hgr3, hc3⟩ := miniwindowMouseDown_loop_release E wwin event.x event.y
    event.button g2 es'
  have hthr : ∀ e, reachesThreshold E event.x event.y e = true → XEvent.isMotion e = true := by
    intro e he
    cases e <;> simp [reachesThreshold, XEvent.isMotion] at he ⊢
  have hmoved : es.any XEvent.isMotion = true →
      g3.s.log.count Call.wDeiconifyWindow = s.log.count Call.wDeiconifyWindow := by
    intro hany
    rw [hany] at hm
    rw [hc3, hc, hcount]
    simp [hm]
  refine ⟨g3, happ.trans hrel, ?_, hmoved, ?_⟩
  · intro hnone
    rw [hnone] at hm
    rw [hc3, hc, hcount]
    simp [hm, hsc]
  · intro hany
    refine ⟨by rw [hgr3, hgr, hany], hmoved ?_⟩
    obtain ⟨e, he, hr⟩ := List.any_eq_true.mp hany
    exact List.any_eq_true.mpr ⟨e, he, hthr e hr⟩

/-- C13 as stated fails for a gesture with jitter only.  With `single_click` set and a
threshold of 4, a press of button 1 at `(10, 10)`, a motion to `(11, 10)` and the
release: the threshold was never crossed, the icon was never moved (no `XMoveWindow`
before the release, which commits the unchanged position `(120, 300)`, and no drag
started), yet the calls made do not include the double-click action.  The same press
followed by the release alone does call it. -/
theorem jitter_suppresses_single_click :
    singleClickEnv.wPreferences.single_click = true ∧
    [XEvent.MotionNotify 11 10 111 110].any (reachesThreshold singleClickEnv 10 10) = false ∧
    (miniwindowMouseDown singleClickEnv hintedState examplePress
      [XEvent.MotionNotify 11 10 111 110]).log = [Call.wRaiseFrame, Call.XGrabPointer 50] ∧
    (miniwindowMouseDown singleClickEnv hintedState examplePress
      [XEvent.MotionNotify 11 10 111 110, XEvent.ButtonRelease 1]).position =
      some (120, 300, false) ∧
    (miniwindowMouseDown singleClickEnv hintedState examplePress
      [XEvent.MotionNotify 11 10 111 110, XEvent.ButtonRelease 1]).pending = some [] ∧
    (miniwindowMouseDown singleClickEnv hintedState examplePress
      [XEvent.MotionNotify 11 10 111 110, XEvent.ButtonRelease 1]).log =
      [Call.wRaiseFrame, Call.XGrabPointer 50, Call.XMoveWindow 50 120 300,
        Call.XUngrabPointer] ∧
    (miniwindowMouseDown singleClickEnv hintedState examplePress
      [XEvent.ButtonRelease 1]).log =
      [Call.wRaiseFrame, Call.XGrabPointer 50, Call.XMoveWindow 50 120 300,
        Call.XUngrabPointer, Call.wDeiconifyWindow] := by
  decide

/-- C13 in the single-click environment: a press of button 1 and its release, with
only an exposure in between, call the double-click action once. -/
theorem miniwindowMouseDown_single_click_witness :
    hintedState.icon.owner = some hintedWindow ∧ singleClickEnv.WCHECK_STATE_MODAL = false ∧
    singleClickEnv.IsDoubleClick examplePress = false ∧
    singleClickEnv.wPreferences.single_click = true ∧
    XEvent.ButtonRelease examplePress.button ∉ [XEvent.Expose] ∧
    ∃ g, miniwindowMouseDown singleClickEnv hintedState examplePress
        ([XEvent.Expose] ++ XEvent.ButtonRelease examplePress.button :: []) =
        Outcome.returned g [] ∧
      g.s.log.count Call.wDeiconifyWindow = hintedState.log.count Call.wDeiconifyWindow + 1 :=
  ⟨rfl, rfl, rfl, rfl, by decide,
    (match miniwindowMouseDown_single_click singleClickEnv hintedState hintedWindow
        examplePress [XEvent.Expose] [] rfl rfl rfl rfl (by decide) with
      | ⟨g, h1, h2, _⟩ => ⟨g, h1, h2 (by decide)⟩)⟩

end WM
